import Mathlib

set_option linter.unusedVariables false

/-! Formal model of the job-state pipeline and real-time fan-out bus of the
Pinterest scraper backend: the session state tracker (`SessionRepo`), the
broadcast publisher (`broadcast`), the two Celery stage-tasks
(`warm_up_scraping` and `validate` with their async bodies), the task chain
started by `create_prompt`, and the WebSocket fan-out manager (`WSManager`).

Python functions are embedded as state transformers over an explicit `World`
(the Mongo documents touched by one job, plus observable output channels);
exception propagation is modelled with `Except PyExc`.  External collaborators
(Mongo availability, Redis transport, Playwright actions, the OpenAI scorer)
are modelled as oracle parameters, so theorems quantify over their outcomes. -/

/-- Python exception classes raised by the modelled code. -/
inductive PyExc where
  | valueError (msg : String)
  | typeError (msg : String)
  | runtimeError (msg : String)
deriving DecidableEq

/-- Message text of an exception (used when an error is interpolated into a log line). -/
def PyExc.text : PyExc → String
  | .valueError m => m
  | .typeError m => m
  | .runtimeError m => m

/-- The session document (models/session.py): stage, status and append-only log. -/
structure SessionDoc where
  stage : String
  status : String
  log : List String
deriving DecidableEq

/-- A pin document (models/pin.py), as stored by the scraping stage and
updated by the validation stage. -/
structure PinDoc where
  id : String
  prompt_id : String
  image_url : String
  pin_url : String
  title : String
  description : String
  match_score : ℚ
  status : String
  ai_explanation : String
deriving DecidableEq

/-- The wire messages of models/update_messages.py (WarmupMessage,
ScrapedImageMessage, ValidationMessage). -/
inductive Msg where
  | warmup (message : String)
  | scrapedImage (pin_id : String) (image_title : String) (url : String) (pin_url : String)
  | validationMsg (pin_id : String) (score : ℚ) (label : String) (valid : Bool)
deriving DecidableEq

/-- The observable state touched by one job: its session document and prompt
status in Mongo, the pin documents, the list of messages that reached the Redis
channel, the application logger output, console prints, and a counter of
broadcast attempts (used to address the transport oracle per call). -/
structure World where
  session : SessionDoc
  promptStatus : String
  pins : List PinDoc
  nextPinId : Nat
  published : List Msg
  appLog : List String
  console : List String
  bcastCount : Nat
deriving DecidableEq

/-- A Python computation: transforms the world and either returns a value or
raises an exception (side effects performed before the raise persist). -/
def Py (α : Type) : Type := World → World × Except PyExc α

instance : Monad Py where
  pure a := fun w => (w, Except.ok a)
  bind m f := fun w =>
    match m w with
    | (w1, Except.ok a) => f a w1
    | (w1, Except.error e) => (w1, Except.error e)

/-- Raise an exception. -/
def pyRaise {α : Type} (e : PyExc) : Py α := fun w => (w, Except.error e)

/-- A Python try/except block: on an exception from `m`, run the handler from
the world as it was at the raise. -/
def pyTry {α : Type} (m : Py α) (h : PyExc → Py α) : Py α := fun w =>
  match m w with
  | (w1, Except.ok a) => (w1, Except.ok a)
  | (w1, Except.error e) => h e w1

/-- A console print. -/
def pyPrint (s : String) : Py Unit := fun w =>
  ({ w with console := w.console ++ [s] }, Except.ok ())

/-- Append a line to the application logger (logger.error in repo.py). -/
def logErr (s : String) (w : World) : World :=
  { w with appLog := w.appLog ++ [s] }

/-! ## Database repository layer (services/database/repo.py)

Every repository operation validates its inputs, attempts the storage
operation, and catches any storage exception, reporting failure to the caller
only through its `Bool`/`Option` return value.  The `ok` parameter is the
storage oracle: `false` means the underlying Mongo call raises. -/

/-- SessionRepo.update_status: set the session status; False on invalid input
or storage failure, never an exception. -/
def SessionRepo.update_status (ok : Bool) (session_id status : String) : Py Bool := fun w =>
  if session_id = "" then
    (logErr "Invalid session ID provided for status update" w, Except.ok false)
  else if status = "" then
    (logErr "Invalid status provided for session update" w, Except.ok false)
  else if ok then
    ({ w with session := { w.session with status := status } }, Except.ok true)
  else
    (logErr ("Failed to update status for session " ++ session_id) w, Except.ok false)

/-- SessionRepo.update_stage: set the session stage; False on invalid input or
storage failure, never an exception. -/
def SessionRepo.update_stage (ok : Bool) (session_id stage : String) : Py Bool := fun w =>
  if session_id = "" then
    (logErr "Invalid session ID provided for stage update" w, Except.ok false)
  else if stage = "" then
    (logErr "Invalid stage provided for session update" w, Except.ok false)
  else if ok then
    ({ w with session := { w.session with stage := stage } }, Except.ok true)
  else
    (logErr ("Failed to update stage for session " ++ session_id) w, Except.ok false)

/-- SessionRepo.add_log: push a line onto the session log array; False on
invalid input or storage failure, never an exception. -/
def SessionRepo.add_log (ok : Bool) (session_id log : String) : Py Bool := fun w =>
  if session_id = "" then
    (logErr "Invalid session ID provided for log addition" w, Except.ok false)
  else if log = "" then
    (logErr "Invalid log message provided" w, Except.ok false)
  else if ok then
    ({ w with session := { w.session with log := w.session.log ++ [log] } }, Except.ok true)
  else
    (logErr ("Failed to add log to session " ++ session_id) w, Except.ok false)

/-- PromptRepo.update_status: set the prompt status; False on invalid input or
storage failure, never an exception. -/
def PromptRepo.update_status (ok : Bool) (pid status : String) : Py Bool := fun w =>
  if pid = "" then
    (logErr "Invalid prompt ID provided for status update" w, Except.ok false)
  else if status = "" then
    (logErr "Invalid status provided for prompt update" w, Except.ok false)
  else if ok then
    ({ w with promptStatus := status }, Except.ok true)
  else
    (logErr ("Failed to update status for prompt " ++ pid) w, Except.ok false)

/-- PinRepo.create: insert a pin document, returning its fresh id, or None on
storage failure. -/
def PinRepo.create (ok : Bool) (pin : PinDoc) : Py (Option String) := fun w =>
  if ok then
    let pinId := "pin" ++ toString w.nextPinId
    ({ w with pins := w.pins ++ [{ pin with id := pinId }], nextPinId := w.nextPinId + 1 },
      Except.ok (some pinId))
  else
    (logErr "Failed to create pin" w, Except.ok none)

/-- PinRepo.get_pins_by_prompt_id: all pins of a prompt, or None on invalid
input or storage failure. -/
def PinRepo.get_pins_by_prompt_id (ok : Bool) (prompt_id : String) : Py (Option (List PinDoc)) :=
  fun w =>
    if prompt_id = "" then
      (logErr "Invalid prompt ID provided for pin retrieval" w, Except.ok none)
    else if ok then
      (w, Except.ok (some (w.pins.filter (fun p => p.prompt_id == prompt_id))))
    else
      (logErr ("Failed to get pins by prompt_id " ++ prompt_id) w, Except.ok none)

/-- PinRepo.update_pin_status: set a pin status; False on invalid input or
storage failure. -/
def PinRepo.update_pin_status (ok : Bool) (pin_id status : String) : Py Bool := fun w =>
  if pin_id = "" then
    (logErr "Invalid pin ID provided for status update" w, Except.ok false)
  else if status = "" then
    (logErr "Invalid status provided for pin update" w, Except.ok false)
  else if ok then
    ({ w with pins := w.pins.map (fun p => if p.id = pin_id then { p with status := status } else p) },
      Except.ok true)
  else
    (logErr ("Failed to update pin status for " ++ pin_id) w, Except.ok false)

/-- PinRepo.update_pin_match_score: set a pin match score; rejects scores
outside [0,1] with False; False on storage failure. -/
def PinRepo.update_pin_match_score (ok : Bool) (pin_id : String) (match_score : ℚ) : Py Bool :=
  fun w =>
    if pin_id = "" then
      (logErr "Invalid pin ID provided for match score update" w, Except.ok false)
    else if ¬ (0 ≤ match_score ∧ match_score ≤ 1) then
      (logErr "Invalid match score provided (must be 0.0 to 1.0)" w, Except.ok false)
    else if ok then
      ({ w with pins := w.pins.map (fun p => if p.id = pin_id then { p with match_score := match_score } else p) },
        Except.ok true)
    else
      (logErr ("Failed to update pin match score for " ++ pin_id) w, Except.ok false)

/-- PinRepo.update_pin_ai_explanation: set a pin AI explanation; False on
invalid input or storage failure. -/
def PinRepo.update_pin_ai_explanation (ok : Bool) (pin_id ai_explanation : String) : Py Bool :=
  fun w =>
    if pin_id = "" then
      (logErr "Invalid pin ID provided for AI explanation update" w, Except.ok false)
    else if ok then
      ({ w with pins := w.pins.map (fun p => if p.id = pin_id then { p with ai_explanation := ai_explanation } else p) },
        Except.ok true)
    else
      (logErr ("Failed to update pin ai explanation for " ++ pin_id) w, Except.ok false)

/-! ## Broadcast publisher (services/messaging/broadcast.py) -/

/-- broadcast: publish a message on the Redis channel of the job.  On transport
failure the redis client raises, and broadcast re-raises a ValueError to its
caller.  `bc` is the transport oracle, addressed by the attempt counter. -/
def broadcast (bc : Nat → Bool) (job_id : String) (message : Msg) : Py Unit := fun w =>
  let n := w.bcastCount
  if bc n then
    ({ w with bcastCount := n + 1, published := w.published ++ [message] }, Except.ok ())
  else
    ({ w with bcastCount := n + 1 },
      Except.error (PyExc.valueError "Failed to broadcast message"))

/-! ## Message constructors (models/update_messages.py)

Pydantic model construction validates field constraints and raises a
ValidationError (modelled as a ValueError) when they are violated. -/

/-- True for strings pydantic accepts as an HttpUrl. -/
def isHttpUrl (s : String) : Bool := s.startsWith "http://" || s.startsWith "https://"

/-- WarmupMessage construction: message must be non-empty. -/
def mkWarmupMessage (message : String) : Py Msg := fun w =>
  if message = "" then (w, Except.error (PyExc.valueError "WarmupMessage validation failed"))
  else (w, Except.ok (Msg.warmup message))

/-- ScrapedImageMessage construction: pin_id must be a string (not None), and
url / pin_url must be HTTP URLs. -/
def mkScrapedImageMessage (pin_id : Option String) (image_title url pin_url : String) : Py Msg :=
  fun w =>
    match pin_id with
    | none => (w, Except.error (PyExc.valueError "ScrapedImageMessage validation failed"))
    | some pid =>
      if isHttpUrl url ∧ isHttpUrl pin_url then
        (w, Except.ok (Msg.scrapedImage pid image_title url pin_url))
      else (w, Except.error (PyExc.valueError "ScrapedImageMessage validation failed"))

/-- ValidationMessage construction: score must lie in [0,1] and the label must
be non-empty. -/
def mkValidationMessage (pin_id : String) (score : ℚ) (label : String) (valid : Bool) : Py Msg :=
  fun w =>
    if (0 ≤ score ∧ score ≤ 1) ∧ label ≠ "" then
      (w, Except.ok (Msg.validationMsg pin_id score label valid))
    else (w, Except.error (PyExc.valueError "ValidationMessage validation failed"))

/-! ## Validation stage-task (tasks/validation.py) -/

/-- Configuration constant VALIDATION_CONFIG.min_score, the value 0.5
(written with `mkRat` so that it evaluates inside the kernel; see
`VALIDATION_min_score_eq`). -/
def VALIDATION_min_score : ℚ := mkRat 1 2

/-- Outcome of one awaited call of the external scorer
(score_image_against_prompt under asyncio.wait_for): a returned raw score with
an explanation, a timeout, or a raised exception.  The scorer is an external
collaborator, so its outcome is an oracle; the raw score is adversarial
(possibly None). -/
inductive EvalOutcome where
  | score (s : Option ℚ) (explanation : String)
  | timeout
  | raiseE (e : PyExc)
deriving DecidableEq

/-- Oracle environment for one run of the validation task: storage
availability, broadcast transport per attempt, and the scorer outcome per pin
index. -/
structure VEnv where
  storageOk : Bool
  bcast : Nat → Bool
  eval : Nat → EvalOutcome

/-- The score clamping of tasks/validation.py lines 196-198:
float(score) if score is not None else 0.0, then clamped into [0,1]. -/
def clampScore (score : Option ℚ) : ℚ :=
  max 0 (min 1 (match score with | some s => s | none => 0))

/-- One iteration of the validation loop body (tasks/validation.py lines
169-219) for the pin at index `idx` of the snapshot: evaluate with timeout
protection, update pin status/score/explanation, build the ValidationMessage,
broadcast it; every failure of the iteration is absorbed by the per-pin
except block. -/
def validatePin (env : VEnv) (pid session_id prompt : String) (idx : Nat) (pin : PinDoc) :
    Py Unit :=
  pyTry (do
      let sd ← (match env.eval idx with
        | EvalOutcome.score s e => pure (s, e)
        | EvalOutcome.timeout => do
            pyPrint ("Image evaluation timed out for pin " ++ pin.id)
            let _ ← SessionRepo.add_log env.storageOk session_id
              ("Pin " ++ pin.id ++ " evaluation timed out")
            pure (some (0 : ℚ), "Evaluation timed out")
        | EvalOutcome.raiseE e => pyRaise e)
      match sd.1 with
      | none =>
          -- Python: `score < min_score` with score None raises a TypeError
          pyRaise (PyExc.typeError "unsupported comparison of NoneType and float")
      | some s => do
          if s < VALIDATION_min_score then do
            let _ ← PinRepo.update_pin_status env.storageOk pin.id "disqualified"
            let _ ← SessionRepo.add_log env.storageOk session_id
              ("Pin " ++ pin.id ++ " disqualified: " ++ toString s ++ ", " ++ sd.2)
            pure ()
          else do
            let _ ← PinRepo.update_pin_status env.storageOk pin.id "approved"
            let _ ← SessionRepo.add_log env.storageOk session_id
              ("Pin " ++ pin.id ++ " approved: " ++ toString s ++ ", " ++ sd.2)
            pure ()
          let _ ← PinRepo.update_pin_match_score env.storageOk pin.id s
          let _ ← PinRepo.update_pin_ai_explanation env.storageOk pin.id sd.2
          let score_float := clampScore sd.1
          let updateMessage ← mkValidationMessage pin.id score_float sd.2
            (decide (VALIDATION_min_score ≤ score_float))
          pyTry (broadcast env.bcast pid updateMessage)
            (fun broadcast_error => do
              pyPrint ("Broadcast error: " ++ broadcast_error.text)
              let _ ← SessionRepo.add_log env.storageOk session_id
                ("Broadcast error: " ++ broadcast_error.text)
              pure ()))
    (fun pin_error => do
      pyPrint ("Error processing pin " ++ pin.id ++ " during validation: " ++ pin_error.text)
      let _ ← SessionRepo.add_log env.storageOk session_id
        ("Validation failed for pin " ++ pin.id ++ ": " ++ pin_error.text)
      pure ())

/-- The `for pin in pins` loop of _validate_async, indexed from `i`. -/
def validateLoop (env : VEnv) (pid session_id prompt : String) :
    Nat → List PinDoc → Py Unit
  | _, [] => pure ()
  | i, pin :: rest => do
      validatePin env pid session_id prompt i pin
      validateLoop env pid session_id prompt (i + 1) rest

/-- _validate_async (tasks/validation.py lines 116-252): advance the session to
the validation stage, fetch the pins of the prompt, process each pin, then mark
session and prompt completed; on an unhandled exception mark the session failed
and the prompt error and re-raise. -/
def _validate_async (env : VEnv) (pid session_id prompt : String) : Py Unit :=
  pyTry (do
      let _ ← pyTry
          (do let _ ← SessionRepo.update_stage env.storageOk session_id "validation"; pure true)
          (fun e => pyRaise
            (PyExc.runtimeError ("Failed to initialize validation session " ++ session_id)))
      let pins ← PinRepo.get_pins_by_prompt_id env.storageOk pid
      pyPrint ("Found pins for prompt " ++ pid)
      match pins with
      | none => do
          pyPrint ("No pins found for prompt " ++ pid)
          let _ ← SessionRepo.update_status env.storageOk session_id "completed"
          pure ()
      | some [] => do
          pyPrint ("Empty pins list for prompt " ++ pid)
          let _ ← SessionRepo.update_status env.storageOk session_id "completed"
          pure ()
      | some pins => do
          validateLoop env pid session_id prompt 0 pins
          let _ ← SessionRepo.update_status env.storageOk session_id "completed"
          let _ ← PromptRepo.update_status env.storageOk pid "completed"
          pure ())
    (fun e => do
      pyPrint ("Exception caught: " ++ e.text)
      pyTry (do
          let _ ← SessionRepo.update_status env.storageOk session_id "failed"
          let _ ← SessionRepo.add_log env.storageOk session_id
            ("Validation task failed: " ++ e.text)
          pure ())
        (fun log_error => pyPrint ("Error logging validation failure: " ++ log_error.text))
      pyTry (do let _ ← PromptRepo.update_status env.storageOk pid "error"; pure ())
        (fun prompt_error =>
          pyPrint ("Error updating prompt status after validation failure: " ++ prompt_error.text))
      pyRaise e)

/-- The Celery task wrapper `validate` (tasks/validation.py lines 43-112):
validates inputs (raising before the try block), runs the async body, and
catches every exception from it, returning None — so the task never reports
failure to the Celery chain. -/
def validate (env : VEnv) (pid session_id prompt : String) : Py Unit :=
  if pid = "" ∨ session_id = "" ∨ prompt = "" then
    pyRaise (PyExc.valueError
      "All parameters (pid, session_id, prompt) must be provided and non-empty")
  else
    pyTry (_validate_async env pid session_id prompt)
      (fun e => do
        pyPrint ("Task failed with error: " ++ e.text)
        pure ())

/-! ## Warmup and scraping stage-task (tasks/warmup_and_scraping.py) -/

/-- One pin dict extracted by extract_pin_images_from_more_ideas. -/
structure ScrapedPin where
  image_url : String
  pin_link : String
  title : String
  alt_text : String
deriving DecidableEq

/-- Oracle environment for one run of the warmup and scraping task: storage
availability, broadcast transport per attempt, the outcomes of the Playwright
browser actions, and the extraction result. -/
structure WEnv where
  storageOk : Bool
  bcast : Nat → Bool
  accountFound : Bool
  envCreds : Bool
  browserStartOk : Bool
  contextOk : Bool
  navigateOk : Bool
  loggedIn : Bool
  loginOk : Bool
  boardsNavOk : Bool
  createBoardOk : Bool
  savePinsOk : Bool
  moreIdeasOk : Bool
  extracted : Option (List ScrapedPin)
  currUrl : String

/-- _full_warmup_log (tasks/warmup_and_scraping.py lines 597-624): print,
construct the WarmupMessage, persist the line in the session log, then try to
broadcast, absorbing any broadcast failure with a print. -/
def _full_warmup_log (env : WEnv) (pid message session_id : String) : Py Unit := do
  pyPrint ("Warmup: " ++ message)
  let update_message ← mkWarmupMessage message
  let _ ← SessionRepo.add_log env.storageOk session_id ("Warmup: " ++ message)
  pyTry (broadcast env.bcast pid update_message)
    (fun broadcast_error =>
      pyPrint ("Broadcast error in _full_warmup_log: " ++ broadcast_error.text))

/-- _fail_playwright_bot (tasks/warmup_and_scraping.py lines 627-645): mark the
session failed and the prompt error. -/
def _fail_playwright_bot (env : WEnv) (pid session_id : String) : Py Unit := do
  let _ ← SessionRepo.update_status env.storageOk session_id "failed"
  let _ ← PromptRepo.update_status env.storageOk pid "error"
  pure ()

/-- The `for pin in pins` scraping loop of _warm_up_async (lines 503-556):
resolve the pin URL, persist the pin document, log it, and try to broadcast a
ScrapedImageMessage, absorbing any broadcast failure with a log line. -/
def scrapeLoop (env : WEnv) (pid session_id : String) : List ScrapedPin → Py Unit
  | [] => pure ()
  | pin :: rest => do
      pyPrint ("Pin: " ++ pin.title)
      let pinUrl :=
        if pin.pin_link ≠ "" ∧ pin.pin_link.startsWith "/" then
          "https://www.pinterest.com" ++ pin.pin_link
        else if pin.pin_link ≠ "" ∧ pin.pin_link.startsWith "http" then
          pin.pin_link
        else
          env.currUrl
      let pin_doc : PinDoc :=
        { id := "", prompt_id := pid, image_url := pin.image_url, pin_url := pinUrl,
          title := pin.title, description := pin.alt_text, match_score := 0,
          status := "pending", ai_explanation := "" }
      let pin_id ← PinRepo.create env.storageOk pin_doc
      pyPrint ("Saved pin: " ++ pin_id.getD "None")
      let _ ← SessionRepo.add_log env.storageOk session_id ("Saved pin: " ++ pin_id.getD "None")
      pyTry (do
          let m ← mkScrapedImageMessage pin_id pin.title pin.image_url pinUrl
          broadcast env.bcast pid m)
        (fun broadcast_error => do
          pyPrint ("Broadcast error: " ++ broadcast_error.text)
          let _ ← SessionRepo.add_log env.storageOk session_id
            ("Broadcast error: " ++ broadcast_error.text)
          pure ())
      scrapeLoop env pid session_id rest

/-- _warm_up_async (tasks/warmup_and_scraping.py lines 150-594): the warmup
phase (account lookup, browser setup, login, board creation, pin saving,
navigation to recommendations), then the scraping phase (stage advance,
extraction, per-pin persistence and broadcast).  On an unhandled exception the
handler logs, marks the session failed and the prompt error via
_fail_playwright_bot, and re-raises. -/
def _warm_up_async (env : WEnv) (pid session_id prompt : String) : Py Unit :=
  pyTry (do
      let _ ← pyTry (do
            let _ ← SessionRepo.update_stage env.storageOk session_id "warmup"
            let _ ← SessionRepo.update_status env.storageOk session_id "pending"
            _full_warmup_log env pid ("Warmup started for " ++ prompt ++ "!") session_id
            pure true)
          (fun e => pyRaise
            (PyExc.runtimeError ("Failed to initialize session " ++ session_id)))
      _full_warmup_log env pid "Getting Pinterest account info..." session_id
      if env.accountFound then pure () else do
        _full_warmup_log env pid "No Pinterest account found, creating" session_id
        if env.envCreds then
          _full_warmup_log env pid "Created fallback account" session_id
        else do
          _full_warmup_log env pid "Missing login info" session_id
          pyRaise (PyExc.runtimeError
            "No Pinterest account found and missing required environment variables")
      if env.browserStartOk then pure () else do
        _full_warmup_log env pid "Failed to start browser" session_id
        pyRaise (PyExc.runtimeError "Failed to start browser")
      _full_warmup_log env pid "Browser started" session_id
      _full_warmup_log env pid "Proxy configured" session_id
      if env.contextOk then pure () else do
        _full_warmup_log env pid "Failed to create browser context" session_id
        pyRaise (PyExc.runtimeError "Failed to create browser context")
      _full_warmup_log env pid "Browser context created" session_id
      _full_warmup_log env pid "Configuring browser..." session_id
      _full_warmup_log env pid "Browser configured" session_id
      _full_warmup_log env pid "Navigating to Pinterest..." session_id
      if env.navigateOk then pure () else do
        _full_warmup_log env pid "Failed to navigate to Pinterest" session_id
        pyRaise (PyExc.runtimeError "Failed to navigate to Pinterest")
      _full_warmup_log env pid "Navigated to Pinterest" session_id
      _full_warmup_log env pid "Waiting for page to fully load..." session_id
      if env.loggedIn then pure () else do
        _full_warmup_log env pid "Not logged in, attempting login..." session_id
        if env.loginOk then pure () else do
          _full_warmup_log env pid "Failed to login to Pinterest" session_id
          pyRaise (PyExc.runtimeError "Failed to login to Pinterest")
      _full_warmup_log env pid "Login successful" session_id
      _full_warmup_log env pid "Navigating to boards page..." session_id
      if env.boardsNavOk then pure () else do
        _full_warmup_log env pid "Failed to navigate to boards page" session_id
        pyRaise (PyExc.runtimeError "Failed to navigate to boards page")
      _full_warmup_log env pid "Navigated to boards page" session_id
      _full_warmup_log env pid ("Creating board: " ++ prompt) session_id
      if env.createBoardOk then pure () else do
        _full_warmup_log env pid "Failed to create board" session_id
        pyRaise (PyExc.runtimeError "Failed to create board")
      _full_warmup_log env pid "Board created" session_id
      _full_warmup_log env pid "Saving pins to board..." session_id
      if env.savePinsOk then pure () else do
        _full_warmup_log env pid "Failed to save pins to board" session_id
        pyRaise (PyExc.runtimeError "Failed to save pins to board")
      _full_warmup_log env pid "Pins saved to board" session_id
      _full_warmup_log env pid "Getting recommendations from board..." session_id
      if env.moreIdeasOk then pure () else do
        _full_warmup_log env pid "Failed to navigate to more ideas page" session_id
        pyRaise (PyExc.runtimeError "Failed to navigate to more ideas page")
      _full_warmup_log env pid "Navigated to more ideas page" session_id
      _full_warmup_log env pid "Pinterest account successfully warmed up!" session_id
      _full_warmup_log env pid "Beginning scraping..." session_id
      let _ ← SessionRepo.update_stage env.storageOk session_id "scraping"
      let _ ← SessionRepo.update_status env.storageOk session_id "pending"
      match env.extracted with
      | none => do
          _full_warmup_log env pid "Failed to extract pins - function returned None" session_id
          let _ ← SessionRepo.update_status env.storageOk session_id "failed"
          pure ()
      | some [] => do
          _full_warmup_log env pid "No pins found to process" session_id
          let _ ← SessionRepo.update_status env.storageOk session_id "completed"
          pure ()
      | some pins => do
          scrapeLoop env pid session_id pins
          let _ ← SessionRepo.update_status env.storageOk session_id "completed"
          pure ())
    (fun e => do
      pyPrint ("Exception caught: " ++ e.text)
      pyTry (_full_warmup_log env pid ("Error: " ++ e.text) session_id)
        (fun log_error => pyPrint ("Error in _full_warmup_log: " ++ log_error.text))
      pyTry (_fail_playwright_bot env pid session_id)
        (fun fail_error => pyPrint ("Error in _fail_playwright_bot: " ++ fail_error.text))
      pyRaise e)

/-- The Celery task wrapper `warm_up_scraping` (tasks/warmup_and_scraping.py
lines 70-147): validates inputs (raising before the try block), runs the async
body, and catches every exception from it, returning None — so the task never
reports failure to the Celery chain. -/
def warm_up_scraping (env : WEnv) (pid session_id prompt : String) : Py Unit :=
  if pid = "" ∨ session_id = "" ∨ prompt = "" then
    pyRaise (PyExc.valueError
      "All parameters (pid, session_id, prompt) must be provided and non-empty")
  else
    pyTry (_warm_up_async env pid session_id prompt)
      (fun e => do
        pyPrint ("Task failed with error: " ++ e.text)
        pure ())

/-! ## Job pipeline orchestration (routes/prompts.py) -/

/-- Modelled from the spec: the Celery `chain` primitive is library code that
is not part of the sources; per the specification the chain executes the
stage-tasks sequentially and "stage2 begins only after stage1 returns
successfully" — if stage1 raises, stage2 is never started.  The returned Bool
records whether stage2 (`validate`) was invoked. -/
def runChain (wenv : WEnv) (venv : VEnv) (pid session_id prompt : String) : Py Bool := fun w =>
  match warm_up_scraping wenv pid session_id prompt w with
  | (w1, Except.ok _) =>
      match validate venv pid session_id prompt w1 with
      | (w2, _) => (w2, Except.ok true)
  | (w1, Except.error _) => (w1, Except.ok false)

/-- The world right after create_prompt (routes/prompts.py lines 27-50) has
created the prompt (status pending) and its session (stage warmup, status
pending, empty log). -/
def initialWorld : World :=
  { session := { stage := "warmup", status := "pending", log := [] },
    promptStatus := "pending", pins := [], nextPinId := 0,
    published := [], appLog := [], console := [], bcastCount := 0 }

/-- create_prompt (routes/prompts.py): create the prompt and session documents,
then start the warm_up_scraping → validate chain. -/
def create_prompt (wenv : WEnv) (venv : VEnv) (text : String) : Py Bool := fun _ =>
  runChain wenv venv "p1" "s1" text initialWorld

/-! ## Connection fan-out manager (services/messaging/ws_manager.py)

The manager state is the `job_id -> set of connections` defaultdict
(`_conns`), the `job_id -> relay task` dict (`_tasks`, with task handles
numbered by a freshness counter), and the record of WebSocket deliveries.
Dicts are association lists; sets of connections are duplicate-free lists. -/

/-- Lookup in an association list keyed by strings. -/
def aget {β : Type} : List (String × β) → String → Option β
  | [], _ => none
  | e :: rest, k => if e.1 = k then some e.2 else aget rest k

/-- Dict assignment: replace the entry in place, or append a new one. -/
def aset {β : Type} : List (String × β) → String → β → List (String × β)
  | [], k, v => [(k, v)]
  | e :: rest, k, v => if e.1 = k then (k, v) :: rest else e :: aset rest k v

/-- Dict pop: remove the entry of a key (no-op when absent). -/
def adel {β : Type} : List (String × β) → String → List (String × β)
  | [], _ => []
  | e :: rest, k => if e.1 = k then adel rest k else e :: adel rest k

/-- Set add (set.add): no-op when the element is present. -/
def sinsert (v : List Nat) (c : Nat) : List Nat := if c ∈ v then v else v ++ [c]

/-- Set removal (set.discard): removes the element, no-op when absent. -/
def sdiscard : List Nat → Nat → List Nat
  | [], _ => []
  | x :: rest, c => if x = c then sdiscard rest c else x :: sdiscard rest c

/-- The WSManager state: `conns` is the defaultdict job_id -> subscriber set,
`tasks` maps a job_id to its relay task handle, `nextTask` numbers fresh relay
tasks, and `delivered` records every successful WebSocket send. -/
structure WSState where
  conns : List (String × List Nat)
  tasks : List (String × Nat)
  nextTask : Nat
  delivered : List (Nat × String)
deriving DecidableEq

/-- The state of the manager at construction (WSManager.__init__). -/
def initWS : WSState := { conns := [], tasks := [], nextTask := 0, delivered := [] }

/-- WSManager.connect: accept the socket, add it to the subscriber set of the
job, and start a relay task if none exists for this job id (the check and the
creation happen with no await between them). -/
def WSManager.connect (s : WSState) (job_id : String) (ws : Nat) : WSState :=
  let v := (aget s.conns job_id).getD []
  let s1 := { s with conns := aset s.conns job_id (sinsert v ws) }
  match aget s1.tasks job_id with
  | some _ => s1
  | none =>
      { s1 with tasks := aset s1.tasks job_id s1.nextTask, nextTask := s1.nextTask + 1 }

/-- WSManager._cancel_listener: cancel and pop the relay task of the job and
pop its subscriber-set entry. -/
def WSManager._cancel_listener (s : WSState) (job_id : String) : WSState :=
  { s with tasks := adel s.tasks job_id, conns := adel s.conns job_id }

/-- WSManager.disconnect: discard the socket from the subscriber set of the
job; when the set is then empty, tear the relay down via _cancel_listener. -/
def WSManager.disconnect (s : WSState) (job_id : String) (ws : Nat) : WSState :=
  let v := (aget s.conns job_id).getD []
  let v1 := sdiscard v ws
  let s1 := { s with conns := aset s.conns job_id v1 }
  if v1 = [] then WSManager._cancel_listener s1 job_id else s1

/-- WSManager._fanout: iterate over a snapshot of the subscriber set of the
job, sending the payload to each connection; a send failure is caught and the
connection is collected as dead; afterwards every dead connection is discarded
from the set.  `sendOk` is the per-connection transport oracle.  The
defaultdict access materialises an empty entry when the job id is unknown. -/
def WSManager._fanout (sendOk : Nat → Bool) (s : WSState) (job_id : String) (payload : String) :
    WSState :=
  let v := (aget s.conns job_id).getD []
  let s1 := { s with conns := aset s.conns job_id v }
  let delivered := (v.filter (fun c => sendOk c)).map (fun c => (c, payload))
  let dead := v.filter (fun c => ! sendOk c)
  let v1 := dead.foldl (fun acc c => sdiscard acc c) v
  { s1 with conns := aset s1.conns job_id v1, delivered := s1.delivered ++ delivered }

/-- The message loop of WSManager._relay: fans every received channel message
out to the current subscriber set, message n with send oracle `sendOk n`. -/
def WSManager.relayLoop (sendOk : Nat → Nat → Bool) (job_id : String) :
    Nat → WSState → List String → WSState
  | _, s, [] => s
  | n, s, payload :: rest =>
      WSManager.relayLoop sendOk job_id (n + 1)
        (WSManager._fanout (sendOk n) s job_id payload) rest

/-- The operations that mutate the manager state, for stating invariants over
arbitrary interleavings. -/
inductive WSOp where
  | connectOp (job_id : String) (ws : Nat)
  | disconnectOp (job_id : String) (ws : Nat)
  | fanoutOp (sendOk : Nat → Bool) (job_id : String) (payload : String)

/-- Apply one manager operation. -/
def WSOp.apply (s : WSState) : WSOp → WSState
  | .connectOp job ws => WSManager.connect s job ws
  | .disconnectOp job ws => WSManager.disconnect s job ws
  | .fanoutOp sendOk job payload => WSManager._fanout sendOk s job payload

/-- Apply a sequence of manager operations. -/
def WSOp.applyAll (s : WSState) : List WSOp → WSState
  | [] => s
  | op :: rest => WSOp.applyAll (WSOp.apply s op) rest

/-- The structural invariant of the manager: dict keys are unique (so each job
id holds at most one relay task handle and one subscriber set), and every
live task handle is below the freshness counter. -/
def WSInv (s : WSState) : Prop :=
  (s.tasks.map Prod.fst).Nodup ∧ (s.conns.map Prod.fst).Nodup ∧
    ∀ e ∈ s.tasks, e.2 < s.nextTask

/-! ## Derived descriptions used by the theorems -/

/-- The net effect of one validation-loop iteration for snapshot pin `pin`
with scorer outcome `o` on a stored pin document `q`: documents with another
id are untouched; on timeout the pin is disqualified with score 0 and the
timeout reason; on a returned raw score the status follows the threshold, the
score is stored only when it lies in [0,1], and the explanation is stored; a
None score or a scorer exception leaves the document unchanged. -/
def pinStep (o : EvalOutcome) (pin q : PinDoc) : PinDoc :=
  if q.id = pin.id then
    match o with
    | EvalOutcome.timeout =>
        { q with
          status := "disqualified",
          match_score := 0,
          ai_explanation := "Evaluation timed out" }
    | EvalOutcome.score none _ => q
    | EvalOutcome.score (some s) expl =>
        let q1 := { q with
          status := if s < VALIDATION_min_score then "disqualified" else "approved" }
        let q2 := if 0 ≤ s ∧ s ≤ 1 then { q1 with match_score := s } else q1
        { q2 with ai_explanation := expl }
    | EvalOutcome.raiseE _ => q
  else q

/-- The net effect of the whole validation loop (snapshot starting at index i)
on a stored pin document. -/
def pinsAfter (env : VEnv) : Nat → List PinDoc → PinDoc → PinDoc
  | _, [], q => q
  | i, pin :: rest, q => pinsAfter env (i + 1) rest (pinStep (env.eval i) pin q)

/-- A computation that can raise no exception (every Python-level failure is
absorbed internally). -/
def NoExc {α : Type} (m : Py α) : Prop :=
  ∀ w, ∃ a w', m w = (w', Except.ok a)

/-- Every validation message in the list carries a score in [0,1]. -/
def BoundedMsgs (l : List Msg) : Prop :=
  ∀ pin_id s label valid, Msg.validationMsg pin_id s label valid ∈ l → 0 ≤ s ∧ s ≤ 1

/-- A computation only appends to the published channel, and every validation
message it appends carries a score in [0,1] (whether or not it raises). -/
def PubBound {α : Type} (m : Py α) : Prop :=
  ∀ w, ∃ d, ((m w).1).published = w.published ++ d ∧ BoundedMsgs d

/-- A computation that cannot raise and always ends with session status
completed. -/
def PostCompleted {α : Type} (m : Py α) : Prop :=
  ∀ w, ∃ a w', m w = (w', Except.ok a) ∧ w'.session.status = "completed"

/-! ## Concrete fixtures for closed instances -/

/-- Transport oracle: every broadcast succeeds. -/
def bcTrue : Nat → Bool := fun _ => true

/-- Transport oracle: every broadcast fails. -/
def bcFalse : Nat → Bool := fun _ => false

/-- A warmup environment in which every external action succeeds. -/
def wenvOk (bc : Nat → Bool) (extracted : Option (List ScrapedPin)) : WEnv :=
  { storageOk := true, bcast := bc, accountFound := true, envCreds := true,
    browserStartOk := true, contextOk := true, navigateOk := true, loggedIn := true,
    loginOk := true, boardsNavOk := true, createBoardOk := true, savePinsOk := true,
    moreIdeasOk := true, extracted := extracted, currUrl := "https://www.pinterest.com/" }

/-- A warmup environment in which the browser fails to start and everything
else (storage, transport) works. -/
def wenvBrowserFail : WEnv := { wenvOk bcTrue (some []) with browserStartOk := false }

/-- A validation environment with working storage. -/
def venvOf (bc : Nat → Bool) (ev : Nat → EvalOutcome) : VEnv :=
  { storageOk := true, bcast := bc, eval := ev }

/-- A stored pin document of prompt p1. -/
def pinA : PinDoc :=
  { id := "a", prompt_id := "p1", image_url := "https://i.pinimg.com/a.jpg",
    pin_url := "https://www.pinterest.com/pin/a/", title := "a", description := "",
    match_score := 0, status := "pending", ai_explanation := "" }

/-- A second stored pin document of prompt p1. -/
def pinB : PinDoc :=
  { id := "b", prompt_id := "p1", image_url := "https://i.pinimg.com/b.jpg",
    pin_url := "https://www.pinterest.com/pin/b/", title := "b", description := "",
    match_score := 0, status := "pending", ai_explanation := "" }

/-- A world holding the two pins of prompt p1, as left by the scraping stage. -/
def wTwoPins : World := { initialWorld with pins := [pinA, pinB] }

/-- Scorer oracle: the first pin times out, every further pin scores 3/4. -/
def evalFirstTimesOut : Nat → EvalOutcome := fun n =>
  match n with
  | 0 => EvalOutcome.timeout
  | _ => EvalOutcome.score (some (mkRat 3 4)) "matches the prompt"

/-- The manager state after a single client (socket 1) connected for job j1. -/
def wsOne : WSState := WSManager.connect initWS "j1" 1

/-! ## Monad computation lemmas -/

theorem VALIDATION_min_score_eq : VALIDATION_min_score = 1/2 := by
  norm_num [VALIDATION_min_score, Rat.mkRat_eq_div]

theorem Py.bind_apply {α β : Type} (m : Py α) (f : α → Py β) (w : World) :
    (m >>= f) w =
      match m w with
      | (w1, Except.ok a) => f a w1
      | (w1, Except.error e) => (w1, Except.error e) := rfl

theorem Py.pure_apply {α : Type} (a : α) (w : World) :
    (pure a : Py α) w = (w, Except.ok a) := rfl

theorem Py.bind_of_ok {α β : Type} {m : Py α} {f : α → Py β} {w w1 : World} {a : α}
    (h : m w = (w1, Except.ok a)) : (m >>= f) w = f a w1 := by
  rw [Py.bind_apply, h]

theorem Py.bind_of_error {α β : Type} {m : Py α} {f : α → Py β} {w w1 : World} {e : PyExc}
    (h : m w = (w1, Except.error e)) : (m >>= f) w = (w1, Except.error e) := by
  rw [Py.bind_apply, h]

theorem pyTry_of_ok {α : Type} {m : Py α} {h : PyExc → Py α} {w w1 : World} {a : α}
    (hm : m w = (w1, Except.ok a)) : pyTry m h w = (w1, Except.ok a) := by
  unfold pyTry; rw [hm]

theorem pyTry_of_error {α : Type} {m : Py α} {h : PyExc → Py α} {w w1 : World} {e : PyExc}
    (hm : m w = (w1, Except.error e)) : pyTry m h w = h e w1 := by
  unfold pyTry; rw [hm]

/-- A non-empty string prepended to anything is non-empty. -/
theorem str_append_ne_empty (s t : String) (h : s ≠ "") : s ++ t ≠ "" := by
  intro hc
  apply h
  have hl := congrArg String.length hc
  rw [String.length_append] at hl
  have he : ("" : String).length = 0 := rfl
  have h0 : s.length = 0 := by omega
  exact String.ext (List.eq_nil_of_length_eq_zero h0)

/-! ## No-exception and postcondition reasoning -/

theorem noExc_pure {α : Type} (a : α) : NoExc (pure a : Py α) :=
  fun w => ⟨a, w, rfl⟩

theorem noExc_bind {α β : Type} {m : Py α} {f : α → Py β}
    (hm : NoExc m) (hf : ∀ a, NoExc (f a)) : NoExc (m >>= f) := by
  intro w
  obtain ⟨a, w1, h1⟩ := hm w
  obtain ⟨b, w2, h2⟩ := hf a w1
  exact ⟨b, w2, by rw [Py.bind_of_ok h1, h2]⟩

theorem noExc_pyTry {α : Type} {m : Py α} {h : PyExc → Py α}
    (hh : ∀ e, NoExc (h e)) : NoExc (pyTry m h) := by
  intro w
  rcases hm : m w with ⟨w1, r⟩
  cases r with
  | ok a => exact ⟨a, w1, pyTry_of_ok hm⟩
  | error e =>
    obtain ⟨a, w2, h2⟩ := hh e w1
    exact ⟨a, w2, by rw [pyTry_of_error hm, h2]⟩

theorem noExc_pyPrint (s : String) : NoExc (pyPrint s) :=
  fun w => ⟨(), _, rfl⟩

theorem noExc_update_status (ok : Bool) (sid st : String) :
    NoExc (SessionRepo.update_status ok sid st) := by
  intro w
  unfold SessionRepo.update_status
  split
  · exact ⟨_, _, rfl⟩
  · split
    · exact ⟨_, _, rfl⟩
    · split
      · exact ⟨_, _, rfl⟩
      · exact ⟨_, _, rfl⟩

theorem noExc_update_stage (ok : Bool) (sid st : String) :
    NoExc (SessionRepo.update_stage ok sid st) := by
  intro w
  unfold SessionRepo.update_stage
  split
  · exact ⟨_, _, rfl⟩
  · split
    · exact ⟨_, _, rfl⟩
    · split
      · exact ⟨_, _, rfl⟩
      · exact ⟨_, _, rfl⟩

theorem noExc_add_log (ok : Bool) (sid line : String) :
    NoExc (SessionRepo.add_log ok sid line) := by
  intro w
  unfold SessionRepo.add_log
  split
  · exact ⟨_, _, rfl⟩
  · split
    · exact ⟨_, _, rfl⟩
    · split
      · exact ⟨_, _, rfl⟩
      · exact ⟨_, _, rfl⟩

theorem noExc_prompt_update_status (ok : Bool) (pid st : String) :
    NoExc (PromptRepo.update_status ok pid st) := by
  intro w
  unfold PromptRepo.update_status
  split
  · exact ⟨_, _, rfl⟩
  · split
    · exact ⟨_, _, rfl⟩
    · split
      · exact ⟨_, _, rfl⟩
      · exact ⟨_, _, rfl⟩

theorem noExc_pin_create (ok : Bool) (p : PinDoc) : NoExc (PinRepo.create ok p) := by
  intro w
  unfold PinRepo.create
  split
  · exact ⟨_, _, rfl⟩
  · exact ⟨_, _, rfl⟩

theorem noExc_get_pins (ok : Bool) (pid : String) :
    NoExc (PinRepo.get_pins_by_prompt_id ok pid) := by
  intro w
  unfold PinRepo.get_pins_by_prompt_id
  split
  · exact ⟨_, _, rfl⟩
  · split
    · exact ⟨_, _, rfl⟩
    · exact ⟨_, _, rfl⟩

theorem noExc_update_pin_status (ok : Bool) (pid st : String) :
    NoExc (PinRepo.update_pin_status ok pid st) := by
  intro w
  unfold PinRepo.update_pin_status
  split
  · exact ⟨_, _, rfl⟩
  · split
    · exact ⟨_, _, rfl⟩
    · split
      · exact ⟨_, _, rfl⟩
      · exact ⟨_, _, rfl⟩

theorem noExc_update_pin_match_score (ok : Bool) (pid : String) (sc : ℚ) :
    NoExc (PinRepo.update_pin_match_score ok pid sc) := by
  intro w
  unfold PinRepo.update_pin_match_score
  split
  · exact ⟨_, _, rfl⟩
  · split
    · exact ⟨_, _, rfl⟩
    · split
      · exact ⟨_, _, rfl⟩
      · exact ⟨_, _, rfl⟩

theorem noExc_update_pin_ai_explanation (ok : Bool) (pid ex : String) :
    NoExc (PinRepo.update_pin_ai_explanation ok pid ex) := by
  intro w
  unfold PinRepo.update_pin_ai_explanation
  split
  · exact ⟨_, _, rfl⟩
  · split
    · exact ⟨_, _, rfl⟩
    · exact ⟨_, _, rfl⟩

theorem noExc_mkWarmupMessage (s : String) (h : s ≠ "") : NoExc (mkWarmupMessage s) := by
  intro w
  unfold mkWarmupMessage
  rw [if_neg h]
  exact ⟨_, _, rfl⟩

theorem pyTry_apply {α : Type} (m : Py α) (h : PyExc → Py α) (w : World) :
    pyTry m h w =
      match m w with
      | (w1, Except.ok a) => (w1, Except.ok a)
      | (w1, Except.error e) => h e w1 := rfl

theorem pyRaise_apply {α : Type} (e : PyExc) (w : World) :
    (pyRaise e : Py α) w = (w, Except.error e) := rfl

theorem pyPrint_apply (s : String) (w : World) :
    pyPrint s w = ({ w with console := w.console ++ [s] }, Except.ok ()) := rfl

theorem str_pin_ne (x : String) : "Pin " ++ x ≠ "" :=
  str_append_ne_empty "Pin " x (by decide)

theorem str_vfail_ne (x : String) : "Validation failed for pin " ++ x ≠ "" :=
  str_append_ne_empty "Validation failed for pin " x (by decide)

theorem str_bcerr_ne (x : String) : "Broadcast error: " ++ x ≠ "" :=
  str_append_ne_empty "Broadcast error: " x (by decide)

theorem pinStep_score_none (expl : String) (pin q : PinDoc) :
    pinStep (EvalOutcome.score none expl) pin q = q := by
  unfold pinStep; split <;> rfl

theorem pinStep_raise (e : PyExc) (pin q : PinDoc) :
    pinStep (EvalOutcome.raiseE e) pin q = q := by
  unfold pinStep; split <;> rfl

theorem map_pinStep_score_none (expl : String) (pin : PinDoc) (l : List PinDoc) :
    l.map (pinStep (EvalOutcome.score none expl) pin) = l := by
  induction l with
  | nil => rfl
  | cons p rest ih => simp [pinStep_score_none, ih]

theorem map_pinStep_raise (e : PyExc) (pin : PinDoc) (l : List PinDoc) :
    l.map (pinStep (EvalOutcome.raiseE e) pin) = l := by
  induction l with
  | nil => rfl
  | cons p rest ih => simp [pinStep_raise, ih]


/-- Full characterisation of one validation-loop iteration with working
storage: it never raises, preserves session status/stage and prompt status,
only appends to the session log, transforms the stored pins exactly by
`pinStep`, and on a scorer timeout records the timeout reason in the session
log. -/
theorem validatePin_spec (env : VEnv) (pid sid prompt : String) (idx : Nat) (pin : PinDoc)
    (hst : env.storageOk = true) (hsid : sid ≠ "") (hpin : pin.id ≠ "") (w : World) :
    ∃ w', validatePin env pid sid prompt idx pin w = (w', Except.ok ()) ∧
      w'.session.status = w.session.status ∧
      w'.session.stage = w.session.stage ∧
      w'.promptStatus = w.promptStatus ∧
      (∃ d, w'.session.log = w.session.log ++ d) ∧
      w'.pins = w.pins.map (pinStep (env.eval idx) pin) ∧
      (env.eval idx = EvalOutcome.timeout →
        ("Pin " ++ pin.id ++ " evaluation timed out") ∈ w'.session.log) := by
  cases hcase : env.eval idx with
  | score s expl =>
    cases s with
    | none =>
      have hline : ("Validation failed for pin " ++ pin.id ++ ": " ++
          (PyExc.typeError "unsupported comparison of NoneType and float").text) ≠ "" :=
        str_append_ne_empty _ _ (str_append_ne_empty _ _ (str_vfail_ne pin.id))
      unfold validatePin
      rw [hcase]
      simp only [Py.bind_apply, Py.pure_apply, pyTry_apply, pyRaise_apply, pyPrint_apply,
        SessionRepo.add_log, hst, hsid, hline, if_true, if_false, ite_true, ite_false,
        ne_eq, not_false_eq_true]
      exact ⟨_, rfl, rfl, rfl, rfl, ⟨_, rfl⟩,
        (map_pinStep_score_none expl pin w.pins).symm, by simp [hcase]⟩
    | some s =>
      have hdisq : ("Pin " ++ pin.id ++ " disqualified: " ++ toString s ++ ", " ++ expl) ≠ "" :=
        str_append_ne_empty _ _ (str_append_ne_empty _ _ (str_append_ne_empty _ _
          (str_append_ne_empty _ _ (str_pin_ne pin.id))))
      have happr : ("Pin " ++ pin.id ++ " approved: " ++ toString s ++ ", " ++ expl) ≠ "" :=
        str_append_ne_empty _ _ (str_append_ne_empty _ _ (str_append_ne_empty _ _
          (str_append_ne_empty _ _ (str_pin_ne pin.id))))
      have hvf : ∀ t : String, ("Validation failed for pin " ++ pin.id ++ ": " ++ t) ≠ "" :=
        fun t => str_append_ne_empty _ _ (str_append_ne_empty _ _ (str_vfail_ne pin.id))
      have hbe : ∀ t : String, ("Broadcast error: " ++ t) ≠ "" := fun t => str_bcerr_ne t
      have hdq : "disqualified" ≠ "" := by decide
      have hap : "approved" ≠ "" := by decide
      have hcs0 : (0:ℚ) ≤ 0 ⊔ 1 ⊓ s := le_sup_left
      have hcs1 : ((0:ℚ) ⊔ 1 ⊓ s) ≤ 1 := sup_le (by norm_num) inf_le_left
      unfold validatePin
      rw [hcase]
      by_cases hlt : s < VALIDATION_min_score <;>
        by_cases hexpl : expl = "" <;>
          by_cases hrg : (0:ℚ) ≤ s ∧ s ≤ 1 <;>
            cases hbc : env.bcast w.bcastCount <;>
            · simp only [Py.bind_apply, Py.pure_apply, pyTry_apply, pyRaise_apply,
                pyPrint_apply, SessionRepo.add_log, PinRepo.update_pin_status,
                PinRepo.update_pin_match_score, PinRepo.update_pin_ai_explanation,
                mkValidationMessage, broadcast, clampScore, logErr, hst, hsid, hpin, hdisq, happr,
                hdq, hap, hcs0, hcs1, hlt, hexpl, hrg, hbc, hvf, hbe,
                if_true, if_false, ite_true, ite_false, not_true, not_false_iff,
                and_true, true_and, and_false, false_and, ne_eq, not_false_eq_true,
                Bool.false_eq_true]
              refine ⟨_, rfl, rfl, rfl, rfl, ?_, ?_, by simp [hcase]⟩
              · simp only [List.append_assoc]
                exact ⟨_, rfl⟩
              simp only [List.map_map]
              refine List.map_congr_left ?_
              intro q hq
              by_cases hid : q.id = pin.id <;>
                simp [pinStep, hid, hrg, hlt, Function.comp]
  | timeout =>
    have hline : ("Pin " ++ pin.id ++ " evaluation timed out") ≠ "" :=
      str_append_ne_empty _ _ (str_pin_ne pin.id)
    have hline2 : ("Pin " ++ pin.id ++ " disqualified: " ++ toString (0:ℚ) ++ ", " ++
        "Evaluation timed out") ≠ "" :=
      str_append_ne_empty _ _ (str_append_ne_empty _ _ (str_append_ne_empty _ _
        (str_append_ne_empty _ _ (str_pin_ne pin.id))))
    have h05 : (0:ℚ) < VALIDATION_min_score := by rw [VALIDATION_min_score_eq]; norm_num
    have hc0 : ((0:ℚ) ⊔ 1 ⊓ 0) = 0 := by rw [min_comm]; norm_num
    have hdq : "disqualified" ≠ "" := by decide
    have heto : "Evaluation timed out" ≠ "" := by decide
    have hbe : ∀ t : String, ("Broadcast error: " ++ t) ≠ "" := fun t => str_bcerr_ne t
    have hrg0 : (0:ℚ) ≤ 0 ∧ (0:ℚ) ≤ 1 := by norm_num
    unfold validatePin
    rw [hcase]
    cases hbc : env.bcast w.bcastCount <;>
    · simp only [Py.bind_apply, Py.pure_apply, pyTry_apply, pyRaise_apply, pyPrint_apply,
        SessionRepo.add_log, SessionRepo.update_status, PinRepo.update_pin_status,
        PinRepo.update_pin_match_score, PinRepo.update_pin_ai_explanation,
        mkValidationMessage, broadcast, logErr, hst, hsid, hpin, hline, hline2, h05, hc0, hdq,
        heto, hbe, hrg0, clampScore, if_true, if_false, ite_true, ite_false, not_true,
        not_false_iff, and_true, true_and, ne_eq, not_false_eq_true, hbc,
        Bool.false_eq_true]
      refine ⟨_, rfl, rfl, rfl, rfl, ?_, ?_, by simp⟩
      · simp only [List.append_assoc]
        exact ⟨_, rfl⟩
      simp only [List.map_map]
      refine List.map_congr_left ?_
      intro q hq
      by_cases hid : q.id = pin.id <;> simp [pinStep, hid, Function.comp]
  | raiseE e =>
    have hline : ∀ t : String, ("Validation failed for pin " ++ pin.id ++ ": " ++ t) ≠ "" :=
      fun t => str_append_ne_empty _ _ (str_append_ne_empty _ _ (str_vfail_ne pin.id))
    unfold validatePin
    rw [hcase]
    simp only [Py.bind_apply, Py.pure_apply, pyTry_apply, pyRaise_apply, pyPrint_apply,
      SessionRepo.add_log, hst, hsid, hline, if_true, if_false, ite_true, ite_false,
      ne_eq, not_false_eq_true]
    exact ⟨_, rfl, rfl, rfl, rfl, ⟨_, rfl⟩,
      (map_pinStep_raise e pin w.pins).symm, by simp [hcase]⟩

theorem map_pinsAfter_nil (env : VEnv) (i : Nat) (l : List PinDoc) :
    l.map (pinsAfter env i []) = l := by
  induction l with
  | nil => rfl
  | cons p rest ih => simp [pinsAfter, ih]

/-- Full characterisation of the validation loop with working storage: it
never raises, preserves session status/stage and prompt status, only appends
to the session log, transforms the stored pins exactly by `pinsAfter`, and
records the timeout reason for every pin whose scorer call timed out. -/
theorem validateLoop_spec (env : VEnv) (pid sid prompt : String)
    (hst : env.storageOk = true) (hsid : sid ≠ "") :
    ∀ (ps : List PinDoc) (i : Nat) (w : World), (∀ p ∈ ps, p.id ≠ "") →
    ∃ w', validateLoop env pid sid prompt i ps w = (w', Except.ok ()) ∧
      w'.session.status = w.session.status ∧
      w'.session.stage = w.session.stage ∧
      w'.promptStatus = w.promptStatus ∧
      (∃ d, w'.session.log = w.session.log ++ d) ∧
      w'.pins = w.pins.map (pinsAfter env i ps) ∧
      (∀ (j : Nat) (hj : j < ps.length), env.eval (i + j) = EvalOutcome.timeout →
        ("Pin " ++ (ps.get ⟨j, hj⟩).id ++ " evaluation timed out") ∈ w'.session.log) := by
  intro ps
  induction ps with
  | nil =>
    intro i w hids
    refine ⟨w, rfl, rfl, rfl, rfl, ⟨[], by simp⟩, (map_pinsAfter_nil env i w.pins).symm, ?_⟩
    intro j hj
    exact absurd hj (by simp)
  | cons p rest ih =>
    intro i w hids
    obtain ⟨w1, heq1, hstat1, hstg1, hpr1, ⟨d1, hlog1⟩, hpins1, htime1⟩ :=
      validatePin_spec env pid sid prompt i p hst hsid (hids p (by simp)) w
    obtain ⟨w2, heq2, hstat2, hstg2, hpr2, ⟨d2, hlog2⟩, hpins2, htime2⟩ :=
      ih (i + 1) w1 (fun q hq => hids q (by simp [hq]))
    refine ⟨w2, ?_, ?_, ?_, ?_, ?_, ?_, ?_⟩
    · show (validatePin env pid sid prompt i p >>= fun _ =>
        validateLoop env pid sid prompt (i + 1) rest) w = (w2, Except.ok ())
      rw [Py.bind_of_ok heq1, heq2]
    · rw [hstat2, hstat1]
    · rw [hstg2, hstg1]
    · rw [hpr2, hpr1]
    · exact ⟨d1 ++ d2, by rw [hlog2, hlog1, List.append_assoc]⟩
    · rw [hpins2, hpins1, List.map_map]
      rfl
    · intro j hj htj
      cases j with
      | zero =>
        have hmem := htime1 (by simpa using htj)
        rw [hlog2]
        exact List.mem_append_left _ hmem
      | succ j' =>
        have hj' : j' < rest.length := by
          simpa using hj
        have htj' : env.eval ((i + 1) + j') = EvalOutcome.timeout := by
          have : i + (j' + 1) = (i + 1) + j' := by omega
          rw [← this]; exact htj
        have := htime2 j' hj' htj'
        simpa using this

theorem pinStep_id (o : EvalOutcome) (pin q : PinDoc) : (pinStep o pin q).id = q.id := by
  unfold pinStep
  split
  · cases o with
    | score s expl =>
      cases s with
      | none => rfl
      | some s =>
        dsimp only
        split <;> rfl
    | timeout => rfl
    | raiseE e => rfl
  · rfl

theorem pinsAfter_skip (env : VEnv) :
    ∀ (ps : List PinDoc) (i : Nat) (q : PinDoc), (∀ p ∈ ps, q.id ≠ p.id) →
      pinsAfter env i ps q = q := by
  intro ps
  induction ps with
  | nil => intro i q h; rfl
  | cons p rest ih =>
    intro i q h
    have hq : pinStep (env.eval i) p q = q := by
      unfold pinStep; rw [if_neg (h p (by simp))]
    show pinsAfter env (i + 1) rest (pinStep (env.eval i) p q) = q
    rw [hq]
    exact ih (i + 1) q (fun p' hp' => h p' (by simp [hp']))

/-- With pairwise distinct pin ids, the whole validation loop acts on the
document with the id of the snapshot pin at position j exactly as the single
iteration for that pin. -/
theorem pinsAfter_get (env : VEnv) :
    ∀ (ps : List PinDoc) (i j : Nat) (hj : j < ps.length) (q : PinDoc),
      (ps.map PinDoc.id).Nodup → q.id = (ps.get ⟨j, hj⟩).id →
      pinsAfter env i ps q = pinStep (env.eval (i + j)) (ps.get ⟨j, hj⟩) q := by
  intro ps
  induction ps with
  | nil => intro i j hj; exact absurd hj (by simp)
  | cons p rest ih =>
    intro i j hj q hnd hqid
    rw [List.map_cons, List.nodup_cons] at hnd
    cases j with
    | zero =>
      have hqp : q.id = p.id := by simpa using hqid
      show pinsAfter env (i + 1) rest (pinStep (env.eval i) p q) = _
      have hskip : ∀ p' ∈ rest, (pinStep (env.eval i) p q).id ≠ p'.id := by
        intro p' hp' heq
        rw [pinStep_id, hqp] at heq
        exact hnd.1 (heq ▸ List.mem_map_of_mem PinDoc.id hp')
      rw [pinsAfter_skip env rest (i + 1) _ hskip]
      simp
    | succ j' =>
      have hj' : j' < rest.length := by simpa using hj
      have hq' : q.id = (rest.get ⟨j', hj'⟩).id := by simpa using hqid
      have hne : q.id ≠ p.id := by
        intro he
        apply hnd.1
        rw [← he, hq']
        exact List.mem_map_of_mem PinDoc.id (rest.get_mem _ _)
      have hstep : pinStep (env.eval i) p q = q := by
        unfold pinStep; rw [if_neg hne]
      show pinsAfter env (i + 1) rest (pinStep (env.eval i) p q) = _
      rw [hstep, ih (i + 1) j' hj' q hnd.2 hq']
      have harith : (i + 1) + j' = i + (j' + 1) := by omega
      simp [harith]

theorem validate_async_spec (env : VEnv) (pid sid prompt : String) (w : World)
    (hst : env.storageOk = true) (hsid : sid ≠ "") (hpid : pid ≠ "")
    (hids : ∀ p ∈ w.pins, p.id ≠ "") :
    ∃ w', _validate_async env pid sid prompt w = (w', Except.ok ()) ∧
      w'.session.status = "completed" ∧
      (w.pins.filter (fun p => p.prompt_id == pid) ≠ [] →
        w'.promptStatus = "completed" ∧
        w'.pins = w.pins.map (pinsAfter env 0 (w.pins.filter (fun p => p.prompt_id == pid))) ∧
        (∃ d, w'.session.log = w.session.log ++ d) ∧
        ∀ (j : Nat) (hj : j < (w.pins.filter (fun p => p.prompt_id == pid)).length),
          env.eval j = EvalOutcome.timeout →
          ("Pin " ++ ((w.pins.filter (fun p => p.prompt_id == pid)).get ⟨j, hj⟩).id ++
            " evaluation timed out") ∈ w'.session.log) := by
  have hv : ("validation" : String) ≠ "" := by decide
  have hc : ("completed" : String) ≠ "" := by decide
  cases hfil : w.pins.filter (fun p => p.prompt_id == pid) with
  | nil =>
    unfold _validate_async
    simp only [hst, Py.bind_apply, Py.pure_apply, pyTry_apply, pyRaise_apply, pyPrint_apply,
      SessionRepo.update_stage, SessionRepo.update_status, PinRepo.get_pins_by_prompt_id,
      PromptRepo.update_status, logErr, hsid, hpid, hv, hc, hfil,
      if_true, if_false, ite_true, ite_false, ne_eq, not_false_eq_true]
    exact ⟨_, rfl, rfl, fun hne => (hne trivial).elim⟩
  | cons a l =>
    obtain ⟨wC, heqC, hstatC, hstgC, hprC, ⟨dC, hlogC⟩, hpinsC, htimeC⟩ :=
      validateLoop_spec env pid sid prompt hst hsid (a :: l) 0
        { w with
          session := { w.session with stage := "validation" },
          console := w.console ++ ["Found pins for prompt " ++ pid] }
        (fun p hp => hids p (List.mem_of_mem_filter (hfil ▸ hp)))
    unfold _validate_async
    simp only [hst, Py.bind_apply, Py.pure_apply, pyTry_apply, pyRaise_apply, pyPrint_apply,
      SessionRepo.update_stage, SessionRepo.update_status, PinRepo.get_pins_by_prompt_id,
      PromptRepo.update_status, logErr, hsid, hpid, hv, hc, hfil, heqC,
      if_true, if_false, ite_true, ite_false, ne_eq, not_false_eq_true]
    refine ⟨_, rfl, rfl, fun _ => ⟨rfl, ?_, ?_, ?_⟩⟩
    · rw [hpinsC]
    · exact ⟨dC, by rw [hlogC]⟩
    · intro j hj htj
      have := htimeC j hj (by simpa using htj)
      exact this

theorem noExc_pyTry_of_inner {α : Type} {m : Py α} (h : PyExc → Py α)
    (hm : NoExc m) : NoExc (pyTry m h) := by
  intro w
  obtain ⟨a, w1, h1⟩ := hm w
  exact ⟨a, w1, pyTry_of_ok h1⟩

theorem post_bind {α β : Type} {m : Py α} {f : α → Py β}
    (hm : NoExc m) (hf : ∀ a, PostCompleted (f a)) : PostCompleted (m >>= f) := by
  intro w
  obtain ⟨a, w1, h1⟩ := hm w
  obtain ⟨b, w2, h2, hs⟩ := hf a w1
  exact ⟨b, w2, by rw [Py.bind_of_ok h1, h2], hs⟩

theorem post_pyTry {α : Type} {m : Py α} (h : PyExc → Py α)
    (hm : PostCompleted m) : PostCompleted (pyTry m h) := by
  intro w
  obtain ⟨a, w1, h1, hs⟩ := hm w
  exact ⟨a, w1, pyTry_of_ok h1, hs⟩

theorem str_append_ne_empty_right (s t : String) (h : t ≠ "") : s ++ t ≠ "" := by
  intro hc
  apply h
  have hl := congrArg String.length hc
  rw [String.length_append] at hl
  have he : ("" : String).length = 0 := rfl
  have h0 : t.length = 0 := by omega
  exact String.ext (List.eq_nil_of_length_eq_zero h0)

theorem noExc_fwl (env : WEnv) (pid msg sid : String) (h : msg ≠ "") :
    NoExc (_full_warmup_log env pid msg sid) := by
  unfold _full_warmup_log
  refine noExc_bind (noExc_pyPrint _) (fun _ => ?_)
  refine noExc_bind (noExc_mkWarmupMessage _ h) (fun m => ?_)
  refine noExc_bind (noExc_add_log _ _ _) (fun _ => ?_)
  exact noExc_pyTry (fun e => noExc_pyPrint _)

theorem noExc_scrapeLoop (env : WEnv) (pid sid : String) :
    ∀ sps, NoExc (scrapeLoop env pid sid sps) := by
  intro sps
  induction sps with
  | nil => exact noExc_pure ()
  | cons sp rest ih =>
    unfold scrapeLoop
    dsimp only
    refine noExc_bind (noExc_pyPrint _) (fun _ => ?_)
    refine noExc_bind (noExc_pin_create _ _) (fun pin_id => ?_)
    refine noExc_bind (noExc_pyPrint _) (fun _ => ?_)
    refine noExc_bind (noExc_add_log _ _ _) (fun _ => ?_)
    refine noExc_bind (noExc_pyTry (fun e =>
      noExc_bind (noExc_pyPrint _) (fun _ =>
        noExc_bind (noExc_add_log _ _ _) (fun _ => noExc_pure _)))) (fun _ => ih)

theorem post_update_completed (sid : String) (hsid : sid ≠ "") :
    PostCompleted (SessionRepo.update_status true sid "completed" >>= fun _ => (pure () : Py Unit)) := by
  intro w
  have hc : ("completed" : String) ≠ "" := by decide
  simp only [Py.bind_apply, Py.pure_apply, SessionRepo.update_status, hsid, hc,
    if_true, if_false, ite_true, ite_false, ne_eq, not_false_eq_true]
  exact ⟨(), _, rfl, rfl⟩

/-- With every external action succeeding, the warmup and scraping task body
completes (whatever the broadcast transport does) and leaves the session
status completed. -/
theorem warmup_async_completes (bc : Nat → Bool) (sps : List ScrapedPin)
    (pid sid prompt : String) (hsid : sid ≠ "") :
    PostCompleted (_warm_up_async (wenvOk bc (some sps)) pid sid prompt) := by
  have hws : ("Warmup started for " ++ prompt ++ "!") ≠ "" :=
    str_append_ne_empty_right _ _ (by decide)
  have hcb : ("Creating board: " ++ prompt) ≠ "" :=
    str_append_ne_empty "Creating board: " prompt (by decide)
  unfold _warm_up_async
  refine post_pyTry _ ?_
  simp only [wenvOk, eq_self_iff_true, if_true]
  refine post_bind (noExc_pyTry_of_inner _ (noExc_bind (noExc_update_stage _ _ _) (fun _ =>
    noExc_bind (noExc_update_status _ _ _) (fun _ =>
      noExc_bind (noExc_fwl _ _ _ _ hws) (fun _ => noExc_pure _))))) (fun _ => ?_)
  refine post_bind (noExc_fwl _ _ _ _ (by decide)) (fun _ => ?_)
  refine post_bind (noExc_pure _) (fun _ => ?_)
  refine post_bind (noExc_pure _) (fun _ => ?_)
  refine post_bind (noExc_fwl _ _ _ _ (by decide)) (fun _ => ?_)
  refine post_bind (noExc_fwl _ _ _ _ (by decide)) (fun _ => ?_)
  refine post_bind (noExc_pure _) (fun _ => ?_)
  refine post_bind (noExc_fwl _ _ _ _ (by decide)) (fun _ => ?_)
  refine post_bind (noExc_fwl _ _ _ _ (by decide)) (fun _ => ?_)
  refine post_bind (noExc_fwl _ _ _ _ (by decide)) (fun _ => ?_)
  refine post_bind (noExc_fwl _ _ _ _ (by decide)) (fun _ => ?_)
  refine post_bind (noExc_pure _) (fun _ => ?_)
  refine post_bind (noExc_fwl _ _ _ _ (by decide)) (fun _ => ?_)
  refine post_bind (noExc_fwl _ _ _ _ (by decide)) (fun _ => ?_)
  refine post_bind (noExc_pure _) (fun _ => ?_)
  refine post_bind (noExc_fwl _ _ _ _ (by decide)) (fun _ => ?_)
  refine post_bind (noExc_fwl _ _ _ _ (by decide)) (fun _ => ?_)
  refine post_bind (noExc_pure _) (fun _ => ?_)
  refine post_bind (noExc_fwl _ _ _ _ (by decide)) (fun _ => ?_)
  refine post_bind (noExc_fwl _ _ _ _ hcb) (fun _ => ?_)
  refine post_bind (noExc_pure _) (fun _ => ?_)
  refine post_bind (noExc_fwl _ _ _ _ (by decide)) (fun _ => ?_)
  refine post_bind (noExc_fwl _ _ _ _ (by decide)) (fun _ => ?_)
  refine post_bind (noExc_pure _) (fun _ => ?_)
  refine post_bind (noExc_fwl _ _ _ _ (by decide)) (fun _ => ?_)
  refine post_bind (noExc_fwl _ _ _ _ (by decide)) (fun _ => ?_)
  refine post_bind (noExc_pure _) (fun _ => ?_)
  refine post_bind (noExc_fwl _ _ _ _ (by decide)) (fun _ => ?_)
  refine post_bind (noExc_fwl _ _ _ _ (by decide)) (fun _ => ?_)
  refine post_bind (noExc_fwl _ _ _ _ (by decide)) (fun _ => ?_)
  refine post_bind (noExc_update_stage _ _ _) (fun _ => ?_)
  refine post_bind (noExc_update_status _ _ _) (fun _ => ?_)
  cases sps with
  | nil =>
    refine post_bind (noExc_fwl _ _ _ _ (by decide)) (fun _ => ?_)
    exact post_update_completed sid hsid
  | cons sp rest =>
    refine post_bind (noExc_scrapeLoop _ _ _ _) (fun _ => ?_)
    exact post_update_completed sid hsid

theorem boundedMsgs_nil : BoundedMsgs [] := by
  intro p s l v hm
  exact absurd hm (List.not_mem_nil _)

theorem boundedMsgs_append {a b : List Msg} (ha : BoundedMsgs a) (hb : BoundedMsgs b) :
    BoundedMsgs (a ++ b) := by
  intro p s l v hm
  rcases List.mem_append.mp hm with h | h
  · exact ha p s l v h
  · exact hb p s l v h

theorem boundedMsgs_validation (pin_id : String) (sc : ℚ) (label : String) (valid : Bool)
    (h0 : 0 ≤ sc) (h1 : sc ≤ 1) :
    BoundedMsgs [Msg.validationMsg pin_id sc label valid] := by
  intro p s l v hm
  simp only [List.mem_singleton, Msg.validationMsg.injEq] at hm
  obtain ⟨-, hs, -, -⟩ := hm
  subst hs
  exact ⟨h0, h1⟩

theorem pubBound_of_preserves {α : Type} {m : Py α}
    (h : ∀ w, ((m w).1).published = w.published) : PubBound m := by
  intro w
  exact ⟨[], by rw [h, List.append_nil], boundedMsgs_nil⟩

theorem pubBound_pure {α : Type} (a : α) : PubBound (pure a : Py α) :=
  pubBound_of_preserves (fun w => rfl)

theorem pubBound_pyRaise {α : Type} (e : PyExc) : PubBound (pyRaise e : Py α) :=
  pubBound_of_preserves (fun w => rfl)

theorem pubBound_pyPrint (s : String) : PubBound (pyPrint s) :=
  pubBound_of_preserves (fun w => rfl)

theorem pubBound_bind_strong {α β : Type} {m : Py α} {f : α → Py β}
    (hm : PubBound m)
    (hf : ∀ a w0 w1, m w0 = (w1, Except.ok a) → PubBound (f a)) : PubBound (m >>= f) := by
  intro w
  obtain ⟨d1, hp1, hb1⟩ := hm w
  rcases hres : m w with ⟨w1, r⟩
  rw [hres] at hp1
  cases r with
  | ok a =>
    obtain ⟨d2, hp2, hb2⟩ := hf a w w1 hres w1
    refine ⟨d1 ++ d2, ?_, boundedMsgs_append hb1 hb2⟩
    rw [Py.bind_of_ok hres, hp2, hp1, List.append_assoc]
  | error e =>
    refine ⟨d1, ?_, hb1⟩
    rw [Py.bind_of_error hres]
    exact hp1

theorem pubBound_bind {α β : Type} {m : Py α} {f : α → Py β}
    (hm : PubBound m) (hf : ∀ a, PubBound (f a)) : PubBound (m >>= f) :=
  pubBound_bind_strong hm (fun a _ _ _ => hf a)

theorem pubBound_pyTry {α : Type} {m : Py α} {h : PyExc → Py α}
    (hm : PubBound m) (hh : ∀ e, PubBound (h e)) : PubBound (pyTry m h) := by
  intro w
  obtain ⟨d1, hp1, hb1⟩ := hm w
  rcases hres : m w with ⟨w1, r⟩
  rw [hres] at hp1
  cases r with
  | ok a => exact ⟨d1, by rw [pyTry_of_ok hres]; exact hp1, hb1⟩
  | error e =>
    obtain ⟨d2, hp2, hb2⟩ := hh e w1
    refine ⟨d1 ++ d2, ?_, boundedMsgs_append hb1 hb2⟩
    rw [pyTry_of_error hres, hp2, hp1, List.append_assoc]

theorem pubBound_ite {α : Type} {c : Prop} [Decidable c] {m1 m2 : Py α}
    (h1 : PubBound m1) (h2 : PubBound m2) : PubBound (if c then m1 else m2) := by
  split <;> assumption

theorem pub_update_status (ok : Bool) (sid st : String) :
    ∀ w, ((SessionRepo.update_status ok sid st w).1).published = w.published := by
  intro w
  unfold SessionRepo.update_status logErr
  split
  · rfl
  · split
    · rfl
    · split
      · rfl
      · rfl

theorem pub_update_stage (ok : Bool) (sid st : String) :
    ∀ w, ((SessionRepo.update_stage ok sid st w).1).published = w.published := by
  intro w
  unfold SessionRepo.update_stage logErr
  split
  · rfl
  · split
    · rfl
    · split
      · rfl
      · rfl

theorem pub_add_log (ok : Bool) (sid line : String) :
    ∀ w, ((SessionRepo.add_log ok sid line w).1).published = w.published := by
  intro w
  unfold SessionRepo.add_log logErr
  split
  · rfl
  · split
    · rfl
    · split
      · rfl
      · rfl

theorem pub_prompt_update_status (ok : Bool) (pid st : String) :
    ∀ w, ((PromptRepo.update_status ok pid st w).1).published = w.published := by
  intro w
  unfold PromptRepo.update_status logErr
  split
  · rfl
  · split
    · rfl
    · split
      · rfl
      · rfl

theorem pub_get_pins (ok : Bool) (pid : String) :
    ∀ w, ((PinRepo.get_pins_by_prompt_id ok pid w).1).published = w.published := by
  intro w
  unfold PinRepo.get_pins_by_prompt_id logErr
  split
  · rfl
  · split
    · rfl
    · rfl

theorem pub_update_pin_status (ok : Bool) (pid st : String) :
    ∀ w, ((PinRepo.update_pin_status ok pid st w).1).published = w.published := by
  intro w
  unfold PinRepo.update_pin_status logErr
  split
  · rfl
  · split
    · rfl
    · split
      · rfl
      · rfl

theorem pub_update_pin_match_score (ok : Bool) (pid : String) (sc : ℚ) :
    ∀ w, ((PinRepo.update_pin_match_score ok pid sc w).1).published = w.published := by
  intro w
  unfold PinRepo.update_pin_match_score logErr
  split
  · rfl
  · split
    · rfl
    · split
      · rfl
      · rfl

theorem pub_update_pin_ai_explanation (ok : Bool) (pid ex : String) :
    ∀ w, ((PinRepo.update_pin_ai_explanation ok pid ex w).1).published = w.published := by
  intro w
  unfold PinRepo.update_pin_ai_explanation logErr
  split
  · rfl
  · split
    · rfl
    · rfl

theorem pub_mkValidationMessage (pin_id : String) (sc : ℚ) (label : String) (valid : Bool) :
    ∀ w, ((mkValidationMessage pin_id sc label valid w).1).published = w.published := by
  intro w
  unfold mkValidationMessage
  split
  · rfl
  · rfl

theorem mkValidationMessage_ok {pin_id : String} {sc : ℚ} {label : String} {valid : Bool}
    {w w1 : World} {m : Msg}
    (h : mkValidationMessage pin_id sc label valid w = (w1, Except.ok m)) :
    m = Msg.validationMsg pin_id sc label valid ∧ 0 ≤ sc ∧ sc ≤ 1 := by
  unfold mkValidationMessage at h
  split at h
  · next hcond =>
    cases h
    exact ⟨rfl, hcond.1.1, hcond.1.2⟩
  · cases h

theorem pubBound_broadcast (bc : Nat → Bool) (jid : String) (m : Msg)
    (hb : BoundedMsgs [m]) : PubBound (broadcast bc jid m) := by
  intro w
  unfold broadcast
  dsimp only
  split
  · exact ⟨[m], rfl, hb⟩
  · exact ⟨[], by simp, boundedMsgs_nil⟩

theorem pubBound_validatePin (env : VEnv) (pid sid prompt : String) (idx : Nat) (pin : PinDoc) :
    PubBound (validatePin env pid sid prompt idx pin) := by
  unfold validatePin
  refine pubBound_pyTry ?_ (fun e => ?_)
  · refine pubBound_bind ?_ (fun sd => ?_)
    · cases env.eval idx with
      | score s expl => exact pubBound_pure _
      | timeout =>
        exact pubBound_bind (pubBound_pyPrint _) (fun _ =>
          pubBound_bind (pubBound_of_preserves (pub_add_log _ _ _)) (fun _ => pubBound_pure _))
      | raiseE e => exact pubBound_pyRaise e
    · rcases sd with ⟨s, expl⟩
      dsimp only
      cases s with
      | none => exact pubBound_pyRaise _
      | some s =>
        dsimp only
        split
        all_goals
          (refine pubBound_bind (pubBound_of_preserves (pub_update_pin_status _ _ _))
            (fun _ => ?_)
           refine pubBound_bind (pubBound_of_preserves (pub_add_log _ _ _)) (fun _ => ?_)
           refine pubBound_bind (pubBound_pure _) (fun _ => ?_)
           refine pubBound_bind (pubBound_of_preserves (pub_update_pin_match_score _ _ _))
            (fun _ => ?_)
           refine pubBound_bind (pubBound_of_preserves (pub_update_pin_ai_explanation _ _ _))
            (fun _ => ?_)
           refine pubBound_bind_strong
            (pubBound_of_preserves (pub_mkValidationMessage _ _ _ _)) (fun m w0 w1 hok => ?_)
           obtain ⟨hm, h0, h1⟩ := mkValidationMessage_ok hok
           subst hm
           refine pubBound_pyTry (pubBound_broadcast _ _ _
            (boundedMsgs_validation _ _ _ _ h0 h1)) (fun e => ?_)
           exact pubBound_bind (pubBound_pyPrint _) (fun _ =>
            pubBound_bind (pubBound_of_preserves (pub_add_log _ _ _)) (fun _ => pubBound_pure _)))
  · exact pubBound_bind (pubBound_pyPrint _) (fun _ =>
      pubBound_bind (pubBound_of_preserves (pub_add_log _ _ _)) (fun _ => pubBound_pure _))

theorem pubBound_validateLoop (env : VEnv) (pid sid prompt : String) :
    ∀ (ps : List PinDoc) (i : Nat), PubBound (validateLoop env pid sid prompt i ps) := by
  intro ps
  induction ps with
  | nil => intro i; exact pubBound_pure ()
  | cons p rest ih =>
    intro i
    exact pubBound_bind (pubBound_validatePin env pid sid prompt i p) (fun _ => ih (i + 1))

theorem pubBound_validate_async (env : VEnv) (pid sid prompt : String) :
    PubBound (_validate_async env pid sid prompt) := by
  unfold _validate_async
  refine pubBound_pyTry ?_ (fun e => ?_)
  · refine pubBound_bind (pubBound_pyTry (pubBound_bind
      (pubBound_of_preserves (pub_update_stage _ _ _)) (fun _ => pubBound_pure _))
      (fun _ => pubBound_pyRaise _)) (fun _ => ?_)
    refine pubBound_bind (pubBound_of_preserves (pub_get_pins _ _)) (fun pins => ?_)
    refine pubBound_bind (pubBound_pyPrint _) (fun _ => ?_)
    rcases pins with _ | ps
    · exact pubBound_bind (pubBound_pyPrint _) (fun _ =>
        pubBound_bind (pubBound_of_preserves (pub_update_status _ _ _))
          (fun _ => pubBound_pure _))
    · rcases ps with _ | ⟨a, l⟩
      · exact pubBound_bind (pubBound_pyPrint _) (fun _ =>
          pubBound_bind (pubBound_of_preserves (pub_update_status _ _ _))
            (fun _ => pubBound_pure _))
      · exact pubBound_bind (pubBound_validateLoop env pid sid prompt (a :: l) 0) (fun _ =>
          pubBound_bind (pubBound_of_preserves (pub_update_status _ _ _)) (fun _ =>
            pubBound_bind (pubBound_of_preserves (pub_prompt_update_status _ _ _))
              (fun _ => pubBound_pure _)))
  · refine pubBound_bind (pubBound_pyPrint _) (fun _ => ?_)
    refine pubBound_bind (pubBound_pyTry (pubBound_bind
      (pubBound_of_preserves (pub_update_status _ _ _)) (fun _ =>
        pubBound_bind (pubBound_of_preserves (pub_add_log _ _ _)) (fun _ => pubBound_pure _)))
      (fun e2 => pubBound_pyPrint _)) (fun _ => ?_)
    refine pubBound_bind (pubBound_pyTry (pubBound_bind
      (pubBound_of_preserves (pub_prompt_update_status _ _ _)) (fun _ => pubBound_pure _))
      (fun e2 => pubBound_pyPrint _)) (fun _ => ?_)
    exact pubBound_pyRaise _

theorem pubBound_validate (env : VEnv) (pid sid prompt : String) :
    PubBound (validate env pid sid prompt) := by
  unfold validate
  refine pubBound_ite (pubBound_pyRaise _) ?_
  exact pubBound_pyTry (pubBound_validate_async env pid sid prompt) (fun e =>
    pubBound_bind (pubBound_pyPrint _) (fun _ => pubBound_pure _))

/-! ## Association-list and set lemmas for the fan-out manager -/

theorem aget_aset_self {β : Type} (m : List (String × β)) (k : String) (v : β) :
    aget (aset m k v) k = some v := by
  induction m with
  | nil => simp [aset, aget]
  | cons e rest ih =>
    by_cases he : e.1 = k
    · simp [aset, he, aget]
    · simp [aset, he, aget, ih]

theorem aget_adel_self {β : Type} (m : List (String × β)) (k : String) :
    aget (adel m k) k = none := by
  induction m with
  | nil => rfl
  | cons e rest ih =>
    by_cases he : e.1 = k
    · simp [adel, he, ih]
    · simp [adel, he, aget, ih]

theorem aset_self {β : Type} (m : List (String × β)) (k : String) (v : β)
    (h : aget m k = some v) : aset m k v = m := by
  induction m with
  | nil => simp [aget] at h
  | cons e rest ih =>
    by_cases he : e.1 = k
    · simp [aget, he] at h
      subst h
      simp [aset, he]
      exact Prod.ext he.symm rfl
    · simp [aget, he] at h
      simp [aset, he, ih h]

theorem sdiscard_not_mem (v : List Nat) (c : Nat) (h : c ∉ v) : sdiscard v c = v := by
  induction v with
  | nil => rfl
  | cons x rest ih =>
    simp only [List.mem_cons, not_or] at h
    simp [sdiscard, Ne.symm h.1, ih h.2]

theorem sdiscard_eq_filter (v : List Nat) (c : Nat) :
    sdiscard v c = v.filter (fun x => decide (x ≠ c)) := by
  induction v with
  | nil => rfl
  | cons x rest ih =>
    by_cases hx : x = c
    · simp [sdiscard, hx, ih]
    · simp [sdiscard, hx, ih]

theorem foldl_sdiscard (ds : List Nat) :
    ∀ v : List Nat, ds.foldl (fun acc c => sdiscard acc c) v =
      v.filter (fun x => decide (x ∉ ds)) := by
  induction ds with
  | nil => intro v; simp
  | cons d ds ih =>
    intro v
    show ds.foldl (fun acc c => sdiscard acc c) (sdiscard v d) = _
    rw [ih (sdiscard v d), sdiscard_eq_filter, List.filter_filter]
    refine List.filter_congr ?_
    intro x hx
    by_cases h1 : x = d <;> by_cases h2 : x ∈ ds <;> simp [h1, h2]

theorem aget_eq_none_iff {β : Type} (m : List (String × β)) (k : String) :
    aget m k = none ↔ k ∉ m.map Prod.fst := by
  induction m with
  | nil => simp [aget]
  | cons e rest ih =>
    by_cases he : e.1 = k
    · simp [aget, he]
    · simp [aget, he, ih, Ne.symm he]

theorem mem_keys_aset {β : Type} (m : List (String × β)) (k k' : String) (v : β) :
    k' ∈ (aset m k v).map Prod.fst ↔ k' ∈ m.map Prod.fst ∨ k' = k := by
  induction m with
  | nil => simp [aset]
  | cons e rest ih =>
    by_cases he : e.1 = k <;> simp [aset, he, ih] <;> tauto

theorem nodup_keys_aset {β : Type} (m : List (String × β)) (k : String) (v : β)
    (h : (m.map Prod.fst).Nodup) : ((aset m k v).map Prod.fst).Nodup := by
  induction m with
  | nil => simp [aset]
  | cons e rest ih =>
    rw [List.map_cons, List.nodup_cons] at h
    by_cases he : e.1 = k
    · rw [show aset (e :: rest) k v = (k, v) :: rest by simp [aset, he]]
      rw [List.map_cons, List.nodup_cons]
      exact ⟨he ▸ h.1, h.2⟩
    · rw [show aset (e :: rest) k v = e :: aset rest k v by simp [aset, he]]
      rw [List.map_cons, List.nodup_cons]
      refine ⟨?_, ih h.2⟩
      intro hmem
      rcases (mem_keys_aset rest k e.1 v).mp hmem with hm | hm
      · exact h.1 hm
      · exact he hm

theorem keys_aset_absent {β : Type} (m : List (String × β)) (k : String) (v : β)
    (h : aget m k = none) : (aset m k v).map Prod.fst = m.map Prod.fst ++ [k] := by
  induction m with
  | nil => simp [aset]
  | cons e rest ih =>
    by_cases he : e.1 = k
    · simp [aget, he] at h
    · simp [aget, he] at h
      simp [aset, he, ih h]

theorem adel_sublist {β : Type} (m : List (String × β)) (k : String) :
    (adel m k).Sublist m := by
  induction m with
  | nil => simp [adel]
  | cons e rest ih =>
    by_cases he : e.1 = k
    · simp only [adel, if_pos he]
      exact ih.cons e
    · simp only [adel, if_neg he]
      exact ih.cons₂ e

theorem mem_aset {β : Type} (m : List (String × β)) (k : String) (v : β) (e : String × β)
    (h : e ∈ aset m k v) : e ∈ m ∨ e = (k, v) := by
  induction m with
  | nil => simpa [aset] using h
  | cons e0 rest ih =>
    by_cases he : e0.1 = k
    · simp only [aset, if_pos he] at h
      rcases List.mem_cons.mp h with h | h
      · exact Or.inr h
      · exact Or.inl (List.mem_cons_of_mem _ h)
    · simp only [aset, if_neg he] at h
      rcases List.mem_cons.mp h with h | h
      · exact Or.inl (h ▸ List.mem_cons_self _ _)
      · rcases ih h with h | h
        · exact Or.inl (List.mem_cons_of_mem _ h)
        · exact Or.inr h

/-- The manager invariant holds initially. -/
theorem wsInv_init : WSInv initWS := by
  refine ⟨?_, ?_, ?_⟩ <;> simp [initWS]

/-- Every manager operation preserves the invariant: in particular, no
operation can ever create a second relay-task entry for a job id. -/
theorem wsInv_step (op : WSOp) (s : WSState) (h : WSInv s) : WSInv (WSOp.apply s op) := by
  obtain ⟨ht, hc, hb⟩ := h
  cases op with
  | connectOp job ws =>
    show WSInv (WSManager.connect s job ws)
    unfold WSManager.connect
    dsimp only
    cases htask : aget s.tasks job with
    | some t => exact ⟨ht, nodup_keys_aset _ _ _ hc, hb⟩
    | none =>
      refine ⟨?_, nodup_keys_aset _ _ _ hc, ?_⟩
      · rw [keys_aset_absent _ _ _ htask, List.nodup_append]
        refine ⟨ht, List.nodup_singleton _, ?_⟩
        intro a ha hb2
        rw [List.mem_singleton] at hb2
        subst hb2
        exact ((aget_eq_none_iff _ _).mp htask) ha
      · intro e he
        rcases mem_aset _ _ _ _ he with hm | hm
        · exact Nat.lt_succ_of_lt (hb e hm)
        · rw [hm]; exact Nat.lt_succ_self _
  | disconnectOp job ws =>
    show WSInv (WSManager.disconnect s job ws)
    unfold WSManager.disconnect WSManager._cancel_listener
    dsimp only
    split
    · refine ⟨?_, ?_, ?_⟩
      · exact ht.sublist ((adel_sublist s.tasks job).map Prod.fst)
      · exact (nodup_keys_aset _ _ _ hc).sublist
          ((adel_sublist (aset s.conns job _) job).map Prod.fst)
      · intro e he
        exact hb e ((adel_sublist s.tasks job).subset he)
    · exact ⟨ht, nodup_keys_aset _ _ _ hc, hb⟩
  | fanoutOp sendOk job payload =>
    show WSInv (WSManager._fanout sendOk s job payload)
    unfold WSManager._fanout
    dsimp only
    exact ⟨ht, nodup_keys_aset _ _ _ (nodup_keys_aset _ _ _ hc), hb⟩

/-! ## Claim theorems -/

/-- C1: The claim states that when the first stage-task raises, `validate` is
never invoked, with the session marked failed and the prompt marked error.
The code does mark the session failed and the prompt error (via
`_fail_playwright_bot`) and re-raises — but the `warm_up_scraping` wrapper
then catches the re-raised exception and returns None, so the Celery chain
sees stage1 as successful and still invokes `validate`.  This theorem
evaluates the model at a failing input (browser start fails): the session is
failed and the prompt is error at the end of stage1, yet the task result is a
success and the chain runs stage2. -/
theorem chain_runs_validate_after_stage1_failure :
    (warm_up_scraping wenvBrowserFail "p1" "s1" "chair" initialWorld).1.session.status =
      "failed" ∧
    (warm_up_scraping wenvBrowserFail "p1" "s1" "chair" initialWorld).1.promptStatus =
      "error" ∧
    (warm_up_scraping wenvBrowserFail "p1" "s1" "chair" initialWorld).2 = Except.ok () ∧
    (runChain wenvBrowserFail (venvOf bcTrue evalFirstTimesOut) "p1" "s1" "chair"
      initialWorld).2 = Except.ok true := by
  refine ⟨?_, ?_, ?_, ?_⟩ <;> rfl

/-- C2: The claim states that once the session status is failed, no later
operation advances the stage or sets status completed for that job.  In the
code, after stage1 fails (status failed), the swallowed exception lets the
chain run `validate`, which advances the stage to validation and — finding no
scraped pins — sets the session status to completed.  This theorem evaluates
that violating trace. -/
theorem failed_session_later_advanced_and_completed :
    (warm_up_scraping wenvBrowserFail "p1" "s1" "chair" initialWorld).1.session.status =
      "failed" ∧
    (runChain wenvBrowserFail (venvOf bcTrue evalFirstTimesOut) "p1" "s1" "chair"
      initialWorld).1.session.stage = "validation" ∧
    (runChain wenvBrowserFail (venvOf bcTrue evalFirstTimesOut) "p1" "s1" "chair"
      initialWorld).1.session.status = "completed" := by
  refine ⟨?_, ?_, ?_⟩ <;> rfl

/-- C3 counterexample: the claim states that a storage failure inside a
session-tracker operation is reported to the caller as a distinct raised
StorageError.  In the code every tracker operation catches the storage
exception and returns False: at this concrete input no exception of any kind
reaches the caller — each result is the ordinary value `Except.ok false`. -/
theorem storage_failure_returns_false_never_raises :
    (SessionRepo.update_status false "s1" "failed" initialWorld).2 = Except.ok false ∧
    (SessionRepo.update_stage false "s1" "scraping" initialWorld).2 = Except.ok false ∧
    (SessionRepo.add_log false "s1" "one line" initialWorld).2 = Except.ok false := by
  refine ⟨?_, ?_, ?_⟩ <;> rfl

/-- C3 amended: every session-tracker operation reports an underlying storage
failure to the caller as a `False` return value (never as a raised error);
the session document is left unchanged — in particular a log line passed to
`add_log` is dropped from the session log — but the failure is recorded on
the application logger, so the drop is signalled rather than silent. -/
theorem tracker_reports_storage_failure_by_return_value
    (w : World) (sid st stg line : String)
    (hsid : sid ≠ "") (hst : st ≠ "") (hstg : stg ≠ "") (hline : line ≠ "") :
    SessionRepo.update_status false sid st w =
      (logErr ("Failed to update status for session " ++ sid) w, Except.ok false) ∧
    SessionRepo.update_stage false sid stg w =
      (logErr ("Failed to update stage for session " ++ sid) w, Except.ok false) ∧
    SessionRepo.add_log false sid line w =
      (logErr ("Failed to add log to session " ++ sid) w, Except.ok false) := by
  refine ⟨?_, ?_, ?_⟩ <;>
    simp [SessionRepo.update_status, SessionRepo.update_stage, SessionRepo.add_log,
      hsid, hst, hstg, hline]

theorem tracker_reports_storage_failure_witness :
    SessionRepo.update_status false "s1" "failed" initialWorld =
      (logErr ("Failed to update status for session " ++ "s1") initialWorld,
        Except.ok false) ∧
    SessionRepo.update_stage false "s1" "scraping" initialWorld =
      (logErr ("Failed to update stage for session " ++ "s1") initialWorld,
        Except.ok false) ∧
    SessionRepo.add_log false "s1" "one line" initialWorld =
      (logErr ("Failed to add log to session " ++ "s1") initialWorld, Except.ok false) :=
  tracker_reports_storage_failure_by_return_value initialWorld "s1" "failed" "scraping"
    "one line" (by decide) (by decide) (by decide) (by decide)

/-- C7: calling `update_stage` with the stage the session already has leaves
the stored state unchanged and returns True (no error): the operation is
idempotent. -/
theorem update_stage_idempotent (w : World) (sid s : String)
    (hsid : sid ≠ "") (hs : s ≠ "") (hcur : w.session.stage = s) :
    SessionRepo.update_stage true sid s w = (w, Except.ok true) := by
  subst hcur
  unfold SessionRepo.update_stage
  rw [if_neg hsid, if_neg hs]
  rfl

theorem update_stage_idempotent_witness :
    SessionRepo.update_stage true "s1" "warmup" initialWorld =
      (initialWorld, Except.ok true) :=
  update_stage_idempotent initialWorld "s1" "warmup" (by decide) (by decide) rfl

/-- When the broadcast of a validation event fails, the per-pin handler logs
the failure to the session log and the iteration still succeeds. -/
theorem validatePin_logs_publish_failure (env : VEnv) (pid sid prompt : String) (idx : Nat)
    (pin : PinDoc) (w : World)
    (hst : env.storageOk = true) (hsid : sid ≠ "") (hpin : pin.id ≠ "")
    (htime : env.eval idx = EvalOutcome.timeout)
    (hbc : env.bcast w.bcastCount = false) :
    ("Broadcast error: " ++ "Failed to broadcast message") ∈
      ((validatePin env pid sid prompt idx pin w).1).session.log := by
  have hline : ("Pin " ++ pin.id ++ " evaluation timed out") ≠ "" :=
    str_append_ne_empty _ _ (str_pin_ne pin.id)
  have hline2 : ("Pin " ++ pin.id ++ " disqualified: " ++ toString (0:ℚ) ++ ", " ++
      "Evaluation timed out") ≠ "" :=
    str_append_ne_empty _ _ (str_append_ne_empty _ _ (str_append_ne_empty _ _
      (str_append_ne_empty _ _ (str_pin_ne pin.id))))
  have h05 : (0:ℚ) < VALIDATION_min_score := by rw [VALIDATION_min_score_eq]; norm_num
  have hc0 : ((0:ℚ) ⊔ 1 ⊓ 0) = 0 := by rw [min_comm]; norm_num
  have hdq : "disqualified" ≠ "" := by decide
  have heto : "Evaluation timed out" ≠ "" := by decide
  have hbe : ∀ t : String, ("Broadcast error: " ++ t) ≠ "" := fun t => str_bcerr_ne t
  have hrg0 : (0:ℚ) ≤ 0 ∧ (0:ℚ) ≤ 1 := by norm_num
  unfold validatePin
  rw [htime]
  simp only [Py.bind_apply, Py.pure_apply, pyTry_apply, pyRaise_apply, pyPrint_apply,
    SessionRepo.add_log, SessionRepo.update_status, PinRepo.update_pin_status,
    PinRepo.update_pin_match_score, PinRepo.update_pin_ai_explanation,
    mkValidationMessage, broadcast, logErr, hst, hsid, hpin, hline, hline2, h05, hc0, hdq,
    heto, hbe, hrg0, clampScore, if_true, if_false, ite_true, ite_false, not_true,
    not_false_iff, and_true, true_and, ne_eq, not_false_eq_true, hbc,
    Bool.false_eq_true]
  simp [List.mem_append, PyExc.text]

/-- C4: on transport failure `broadcast` raises its publish error (the spec
names this error class PublishError; the code realises it as a ValueError) to
the caller; every stage-task caller catches it, logs it, and continues, so a
failed broadcast never aborts the job: both stage-task bodies still run to
completion with session status completed under an arbitrary transport oracle,
and the validation loop records a failed broadcast in the session log. -/
theorem publish_failure_caught_logged_and_job_continues :
    (∀ (w : World) (bc : Nat → Bool) (job_id : String) (m : Msg),
        bc w.bcastCount = false →
        broadcast bc job_id m w =
          ({ w with bcastCount := w.bcastCount + 1 },
            Except.error (PyExc.valueError "Failed to broadcast message"))) ∧
    (∀ (bc : Nat → Bool) (ev : Nat → EvalOutcome) (pid sid prompt : String) (w : World),
        pid ≠ "" → sid ≠ "" → (∀ p ∈ w.pins, p.id ≠ "") →
        ∃ w', _validate_async (venvOf bc ev) pid sid prompt w = (w', Except.ok ()) ∧
          w'.session.status = "completed") ∧
    (∀ (bc : Nat → Bool) (sps : List ScrapedPin) (pid sid prompt : String) (w : World),
        sid ≠ "" →
        ∃ w', _warm_up_async (wenvOk bc (some sps)) pid sid prompt w = (w', Except.ok ()) ∧
          w'.session.status = "completed") ∧
    (∀ (env : VEnv) (pid sid prompt : String) (idx : Nat) (pin : PinDoc) (w : World),
        env.storageOk = true → sid ≠ "" → pin.id ≠ "" →
        env.eval idx = EvalOutcome.timeout → env.bcast w.bcastCount = false →
        ("Broadcast error: " ++ "Failed to broadcast message") ∈
          ((validatePin env pid sid prompt idx pin w).1).session.log) := by
  refine ⟨?_, ?_, ?_, ?_⟩
  · intro w bc job_id m hbc
    unfold broadcast
    dsimp only
    rw [hbc]
    rfl
  · intro bc ev pid sid prompt w hpid hsid hids
    obtain ⟨w', heq, hstat, -⟩ :=
      validate_async_spec (venvOf bc ev) pid sid prompt w rfl hsid hpid hids
    exact ⟨w', heq, hstat⟩
  · intro bc sps pid sid prompt w hsid
    obtain ⟨⟨⟩, w', heq, hstat⟩ := warmup_async_completes bc sps pid sid prompt hsid w
    exact ⟨w', heq, hstat⟩
  · intro env pid sid prompt idx pin w hst hsid hpin htime hbc
    exact validatePin_logs_publish_failure env pid sid prompt idx pin w hst hsid hpin
      htime hbc

theorem publish_failure_witness :
    broadcast bcFalse "p1" (Msg.warmup "starting") wTwoPins =
      ({ wTwoPins with bcastCount := wTwoPins.bcastCount + 1 },
        Except.error (PyExc.valueError "Failed to broadcast message")) ∧
    (∃ w', _validate_async (venvOf bcFalse evalFirstTimesOut) "p1" "s1" "chair" wTwoPins =
      (w', Except.ok ()) ∧ w'.session.status = "completed") ∧
    (∃ w', _warm_up_async (wenvOk bcFalse (some [])) "p1" "s1" "chair" initialWorld =
      (w', Except.ok ()) ∧ w'.session.status = "completed") ∧
    ("Broadcast error: " ++ "Failed to broadcast message") ∈
      ((validatePin { storageOk := true, bcast := bcFalse, eval := fun _ => EvalOutcome.timeout }
        "p1" "s1" "chair" 0 pinA wTwoPins).1).session.log :=
  ⟨publish_failure_caught_logged_and_job_continues.1 wTwoPins bcFalse "p1"
      (Msg.warmup "starting") rfl,
    publish_failure_caught_logged_and_job_continues.2.1 bcFalse evalFirstTimesOut
      "p1" "s1" "chair" wTwoPins (by decide) (by decide) (by decide),
    publish_failure_caught_logged_and_job_continues.2.2.1 bcFalse [] "p1" "s1" "chair"
      initialWorld (by decide),
    publish_failure_caught_logged_and_job_continues.2.2.2
      { storageOk := true, bcast := bcFalse, eval := fun _ => EvalOutcome.timeout }
      "p1" "s1" "chair" 0 pinA wTwoPins rfl (by decide) (by decide) rfl rfl⟩

/-- C5: fanning one message out to the subscriber set of a job id removes
exactly the connections whose send failed, delivers the message to every
other connection, leaves the relay handles untouched, and the relay loop
proceeds to the next message. -/
theorem fanout_removes_exactly_failed_connections
    (s : WSState) (sendOk : Nat → Bool) (job_id payload : String) :
    (aget (WSManager._fanout sendOk s job_id payload).conns job_id).getD [] =
      ((aget s.conns job_id).getD []).filter (fun c => sendOk c) ∧
    (WSManager._fanout sendOk s job_id payload).delivered =
      s.delivered ++ (((aget s.conns job_id).getD []).filter (fun c => sendOk c)).map
        (fun c => (c, payload)) ∧
    (WSManager._fanout sendOk s job_id payload).tasks = s.tasks ∧
    (∀ (sOk : Nat → Nat → Bool) (n : Nat) (rest : List String),
      WSManager.relayLoop sOk job_id n s (payload :: rest) =
        WSManager.relayLoop sOk job_id (n + 1)
          (WSManager._fanout (sOk n) s job_id payload) rest) := by
  refine ⟨?_, rfl, rfl, fun _ _ _ => rfl⟩
  unfold WSManager._fanout
  dsimp only
  rw [aget_aset_self, Option.getD_some, foldl_sdiscard]
  refine List.filter_congr ?_
  intro x hx
  cases hsx : sendOk x
  · simp [List.mem_filter, hx, hsx]
  · simp [List.mem_filter, hx, hsx]

/-- C6: the manager holds at most one relay task per job id at any time (an
invariant preserved by every operation from the initial state); when the last
subscriber of a job disconnects, both the relay handle and the subscriber-set
entry are removed; and a later connect for a job with no relay installs
exactly one relay with a fresh handle, distinct from every handle that ever
existed before. -/
theorem single_relay_per_job_invariant :
    WSInv initWS ∧
    (∀ (op : WSOp) (s : WSState), WSInv s → WSInv (WSOp.apply s op)) ∧
    (∀ (s : WSState) (job_id : String) (ws : Nat),
        sdiscard ((aget s.conns job_id).getD []) ws = [] →
        aget (WSManager.disconnect s job_id ws).tasks job_id = none ∧
        aget (WSManager.disconnect s job_id ws).conns job_id = none) ∧
    (∀ (s : WSState) (job_id : String) (ws : Nat), WSInv s →
        aget s.tasks job_id = none →
        aget (WSManager.connect s job_id ws).tasks job_id = some s.nextTask ∧
        ((WSManager.connect s job_id ws).tasks.map Prod.fst).count job_id = 1 ∧
        (∀ e ∈ s.tasks, e.2 ≠ s.nextTask)) := by
  refine ⟨wsInv_init, fun op s h => wsInv_step op s h, ?_, ?_⟩
  · intro s job_id ws hempty
    unfold WSManager.disconnect WSManager._cancel_listener
    dsimp only
    rw [hempty]
    rw [if_pos rfl]
    exact ⟨aget_adel_self _ _, aget_adel_self _ _⟩
  · intro s job_id ws hInv hnone
    unfold WSManager.connect
    dsimp only
    rw [hnone]
    dsimp only
    refine ⟨aget_aset_self _ _ _, ?_, ?_⟩
    · rw [keys_aset_absent _ _ _ hnone]
      rw [List.count_append]
      rw [List.count_eq_zero.mpr (fun hmem => ((aget_eq_none_iff _ _).mp hnone) hmem)]
      simp
    · exact fun e he => Nat.ne_of_lt (hInv.2.2 e he)

theorem single_relay_witness :
    WSInv initWS ∧
    (aget (WSManager.disconnect wsOne "j1" 1).tasks "j1" = none ∧
      aget (WSManager.disconnect wsOne "j1" 1).conns "j1" = none) ∧
    (aget (WSManager.connect wsOne "j2" 5).tasks "j2" = some wsOne.nextTask ∧
      ((WSManager.connect wsOne "j2" 5).tasks.map Prod.fst).count "j2" = 1 ∧
      (∀ e ∈ wsOne.tasks, e.2 ≠ wsOne.nextTask)) :=
  ⟨single_relay_per_job_invariant.1,
    single_relay_per_job_invariant.2.2.1 wsOne "j1" 1 (by decide),
    single_relay_per_job_invariant.2.2.2 wsOne "j2" 5
      (by unfold WSInv; refine ⟨?_, ?_, ?_⟩ <;> decide) (by decide)⟩

/-- C10 counterexample: the claim states that disconnecting a never-registered
(job id, connection) pair leaves the manager with no subscriber-set entry and
no relay handle for that job id.  With one live subscriber (socket 1) for j1,
disconnecting the never-registered socket 2 leaves both the subscriber-set
entry (still holding socket 1) and the relay handle in place, contradicting
the claim. -/
theorem disconnect_unregistered_leaves_other_subscribers :
    aget (WSManager.disconnect wsOne "j1" 2).conns "j1" = some [1] ∧
    aget (WSManager.disconnect wsOne "j1" 2).tasks "j1" = some 0 := by
  refine ⟨?_, ?_⟩ <;> decide

/-- C10 amended: disconnecting a pair that is not registered never raises
(the operation is total); if the job id has no registered subscribers at all,
the defaultdict entry materialised by the access is torn down again, leaving
no subscriber-set entry and no relay handle; if other subscribers remain,
the manager state is left entirely unchanged. -/
theorem spurious_disconnect_safe (s : WSState) (job_id : String) (ws : Nat)
    (h : ws ∉ (aget s.conns job_id).getD []) :
    ((aget s.conns job_id).getD [] = [] →
      aget (WSManager.disconnect s job_id ws).conns job_id = none ∧
      aget (WSManager.disconnect s job_id ws).tasks job_id = none) ∧
    ((aget s.conns job_id).getD [] ≠ [] →
      (WSManager.disconnect s job_id ws).conns = s.conns ∧
      (WSManager.disconnect s job_id ws).tasks = s.tasks) := by
  have hd : sdiscard ((aget s.conns job_id).getD []) ws = (aget s.conns job_id).getD [] :=
    sdiscard_not_mem _ _ h
  constructor
  · intro hemp
    unfold WSManager.disconnect WSManager._cancel_listener
    dsimp only
    rw [hd, if_pos hemp]
    exact ⟨aget_adel_self _ _, aget_adel_self _ _⟩
  · intro hne
    unfold WSManager.disconnect
    dsimp only
    rw [hd, if_neg hne]
    refine ⟨?_, rfl⟩
    rcases hv : aget s.conns job_id with _ | v0
    · rw [hv] at hne
      simp at hne
    · show aset s.conns job_id ((some v0).getD []) = s.conns
      exact aset_self _ _ _ hv

theorem spurious_disconnect_witness :
    (((aget wsOne.conns "j1").getD [] = [] →
      aget (WSManager.disconnect wsOne "j1" 2).conns "j1" = none ∧
      aget (WSManager.disconnect wsOne "j1" 2).tasks "j1" = none) ∧
    ((aget wsOne.conns "j1").getD [] ≠ [] →
      (WSManager.disconnect wsOne "j1" 2).conns = wsOne.conns ∧
      (WSManager.disconnect wsOne "j1" 2).tasks = wsOne.tasks)) :=
  spurious_disconnect_safe wsOne "j1" 2 (by decide)

/-- C8: when the scorer call for one pin of the validation snapshot times
out, only that pin is recorded as disqualified with score 0 and the timeout
reason in the session log; every other pin whose scorer call returns a raw
score is still processed exactly as usual; and the stage still ends with the
session and prompt status completed. -/
theorem validation_timeout_isolated_to_single_pin
    (env : VEnv) (pid sid prompt : String) (w : World) (k : Nat)
    (hst : env.storageOk = true) (hpid : pid ≠ "") (hsid : sid ≠ "")
    (hids : ∀ p ∈ w.pins, p.id ≠ "")
    (hnd : (w.pins.map PinDoc.id).Nodup)
    (hk : k < (w.pins.filter (fun p => p.prompt_id == pid)).length)
    (htime : env.eval k = EvalOutcome.timeout) :
    ∃ w', _validate_async env pid sid prompt w = (w', Except.ok ()) ∧
      w'.session.status = "completed" ∧
      w'.promptStatus = "completed" ∧
      ("Pin " ++ ((w.pins.filter (fun p => p.prompt_id == pid)).get ⟨k, hk⟩).id ++
        " evaluation timed out") ∈ w'.session.log ∧
      ({ (w.pins.filter (fun p => p.prompt_id == pid)).get ⟨k, hk⟩ with
          status := "disqualified", match_score := 0,
          ai_explanation := "Evaluation timed out" } ∈ w'.pins) ∧
      (∀ (j : Nat) (hj : j < (w.pins.filter (fun p => p.prompt_id == pid)).length)
          (s : ℚ) (expl : String),
        env.eval j = EvalOutcome.score (some s) expl →
        pinStep (EvalOutcome.score (some s) expl)
            ((w.pins.filter (fun p => p.prompt_id == pid)).get ⟨j, hj⟩)
            ((w.pins.filter (fun p => p.prompt_id == pid)).get ⟨j, hj⟩) ∈ w'.pins) := by
  have hne : w.pins.filter (fun p => p.prompt_id == pid) ≠ [] := by
    intro hnil
    rw [hnil] at hk
    exact absurd hk (by simp)
  obtain ⟨w', heq, hstat, himp⟩ := validate_async_spec env pid sid prompt w hst hsid hpid hids
  obtain ⟨hprompt, hpins, ⟨d, hlog⟩, htimelog⟩ := himp hne
  have hndps : ((w.pins.filter (fun p => p.prompt_id == pid)).map PinDoc.id).Nodup :=
    hnd.sublist ((w.pins.filter_sublist).map PinDoc.id)
  refine ⟨w', heq, hstat, hprompt, htimelog k hk htime, ?_, ?_⟩
  · have hmemk : (w.pins.filter (fun p => p.prompt_id == pid)).get ⟨k, hk⟩ ∈ w.pins :=
      List.mem_of_mem_filter (List.get_mem _ _ _)
    have hafter := pinsAfter_get env (w.pins.filter (fun p => p.prompt_id == pid)) 0 k hk
      ((w.pins.filter (fun p => p.prompt_id == pid)).get ⟨k, hk⟩) hndps rfl
    rw [Nat.zero_add, htime] at hafter
    have hstep : pinStep EvalOutcome.timeout
        ((w.pins.filter (fun p => p.prompt_id == pid)).get ⟨k, hk⟩)
        ((w.pins.filter (fun p => p.prompt_id == pid)).get ⟨k, hk⟩) =
        { (w.pins.filter (fun p => p.prompt_id == pid)).get ⟨k, hk⟩ with
          status := "disqualified", match_score := 0,
          ai_explanation := "Evaluation timed out" } := by
      unfold pinStep
      rw [if_pos rfl]
    rw [hpins]
    rw [← hstep, ← hafter]
    exact List.mem_map_of_mem _ hmemk
  · intro j hj s expl hscore
    have hmemj : (w.pins.filter (fun p => p.prompt_id == pid)).get ⟨j, hj⟩ ∈ w.pins :=
      List.mem_of_mem_filter (List.get_mem _ _ _)
    have hafter := pinsAfter_get env (w.pins.filter (fun p => p.prompt_id == pid)) 0 j hj
      ((w.pins.filter (fun p => p.prompt_id == pid)).get ⟨j, hj⟩) hndps rfl
    rw [Nat.zero_add, hscore] at hafter
    rw [hpins, ← hafter]
    exact List.mem_map_of_mem _ hmemj

theorem validation_timeout_witness :
    ∃ w', _validate_async (venvOf bcTrue evalFirstTimesOut) "p1" "s1" "chair" wTwoPins =
        (w', Except.ok ()) ∧
      w'.session.status = "completed" ∧
      w'.promptStatus = "completed" ∧
      ("Pin " ++ ((wTwoPins.pins.filter (fun p => p.prompt_id == "p1")).get
          ⟨0, by decide⟩).id ++ " evaluation timed out") ∈ w'.session.log ∧
      ({ (wTwoPins.pins.filter (fun p => p.prompt_id == "p1")).get ⟨0, by decide⟩ with
          status := "disqualified", match_score := 0,
          ai_explanation := "Evaluation timed out" } ∈ w'.pins) ∧
      (∀ (j : Nat) (hj : j < (wTwoPins.pins.filter (fun p => p.prompt_id == "p1")).length)
          (s : ℚ) (expl : String),
        (venvOf bcTrue evalFirstTimesOut).eval j = EvalOutcome.score (some s) expl →
        pinStep (EvalOutcome.score (some s) expl)
            ((wTwoPins.pins.filter (fun p => p.prompt_id == "p1")).get ⟨j, hj⟩)
            ((wTwoPins.pins.filter (fun p => p.prompt_id == "p1")).get ⟨j, hj⟩) ∈ w'.pins) :=
  validation_timeout_isolated_to_single_pin (venvOf bcTrue evalFirstTimesOut) "p1" "s1"
    "chair" wTwoPins 0 rfl (by decide) (by decide) (by decide) (by decide) (by decide) rfl

/-- C9: every validation progress event that the validation task constructs
and broadcasts carries a score in the closed interval [0,1], whatever raw
value (None included) the external scorer returned: the published channel
only ever grows by messages whose validation scores are clamped into
[0,1]. -/
theorem validation_event_scores_clamped (env : VEnv) (pid sid prompt : String) (w : World) :
    ∃ d, ((validate env pid sid prompt w).1).published = w.published ++ d ∧
      ∀ (pin_id : String) (s : ℚ) (label : String) (valid : Bool),
        Msg.validationMsg pin_id s label valid ∈ d → 0 ≤ s ∧ s ≤ 1 := by
  obtain ⟨d, hp, hb⟩ := pubBound_validate env pid sid prompt w
  exact ⟨d, hp, fun pin_id s label valid hm => hb pin_id s label valid hm⟩

theorem validation_event_scores_witness :
    ∃ d, ((validate (venvOf bcTrue (fun _ => EvalOutcome.score (some 7) "over"))
        "p1" "s1" "chair" wTwoPins).1).published = wTwoPins.published ++ d ∧
      ∀ (pin_id : String) (s : ℚ) (label : String) (valid : Bool),
        Msg.validationMsg pin_id s label valid ∈ d → 0 ≤ s ∧ s ≤ 1 :=
  validation_event_scores_clamped (venvOf bcTrue (fun _ => EvalOutcome.score (some 7) "over"))
    "p1" "s1" "chair" wTwoPins
